import Mathlib

/-!
# SummerCart64 controller: the configuration mailbox (`sw/controller/src/cfg.c`)

A shallow embedding of `cfg.c`.  The global `static struct process p` and the FPGA
register file become fields of an explicit `Machine`; every `fpga_reg_set` and every
call into another firmware module (isv, dd, flash, rtc, usb) is appended to the
machine's `log`, so that the order of register writes and the collaborators that
were invoked can be stated.  `uint32_t` values are natural numbers, reduced modulo
`2^32` wherever the C code can wrap.

The headers `fpga.h`, `usb.h` and `rtc.h` are not part of the sources at hand: the
macro constants they define are the fields of `Consts`, and the answers of the other
modules are the fields of `Collab`.
-/

set_option autoImplicit false

namespace SC64

/-! ## 32-bit arithmetic -/

/-- Conversion to `uint32_t`. -/
def u32 (x : Nat) : Nat := x % 4294967296

/-- Addition of two `uint32_t`, wrapping modulo `2^32`. -/
def add32 (a b : Nat) : Nat := (a + b) % 4294967296

/-- Subtraction of two `uint32_t`, wrapping modulo `2^32`. -/
def sub32 (a b : Nat) : Nat := (a % 4294967296 + 4294967296 - b % 4294967296) % 4294967296

/-- The bitwise complement `~m` of a `uint32_t`. -/
def not32 (m : Nat) : Nat := 4294967295 ^^^ (m % 4294967296)

/-- Conversion of a (signed) `int` to `uint32_t`. -/
def u32_of_int (i : Int) : Nat := (i % 4294967296).toNat

/-! ## Constants, registers and data -/

/-- The macro constants of `fpga.h` and `usb.h` used by `cfg.c`.  Their values are not
in the sources at hand, so they are parameters of the model. -/
structure Consts where
  STATUS_CFG_PENDING : Nat
  CFG_CMD_DONE : Nat
  CFG_CMD_ERROR : Nat
  CFG_SCR_BOOTLOADER_ENABLED : Nat
  CFG_SCR_BOOTLOADER_SKIP : Nat
  CFG_SCR_ROM_WRITE_ENABLED : Nat
  CFG_SCR_ROM_SHADOW_ENABLED : Nat
  CFG_SCR_DD_ENABLED : Nat
  CFG_SCR_DDIPL_ENABLED : Nat
  CFG_SCR_EEPROM_ENABLED : Nat
  CFG_SCR_EEPROM_16K : Nat
  CFG_SCR_FLASHRAM_ENABLED : Nat
  CFG_SCR_SRAM_BANKED : Nat
  CFG_SCR_SRAM_ENABLED : Nat
  PACKET_CMD_USB_OUTPUT : Nat
deriving DecidableEq, Repr

/-- Modelled from the spec: the register names of `fpga.h`, which is not among the sources
at hand.  These are the registers `cfg.c` reads or writes (section 6 of the
specification: status, command, two data registers, control, version). -/
inductive fpga_reg_t where
  | REG_STATUS
  | REG_CFG_SCR
  | REG_CFG_DATA_0
  | REG_CFG_DATA_1
  | REG_CFG_CMD
  | REG_CFG_VERSION
deriving DecidableEq, Repr

open fpga_reg_t

/-- Modelled from the spec: the register file behind `fpga_reg_get` and `fpga_reg_set`
(`fpga.h` and `fpga.c` are not among the sources at hand), one 32-bit cell for each
register; a load returns what was stored last. -/
structure fpga_regs where
  status : Nat
  scr : Nat
  data_0 : Nat
  data_1 : Nat
  cmd : Nat
  version : Nat
deriving DecidableEq, Repr

/-- The cell of a register. -/
def fpga_regs.read (r : fpga_regs) : fpga_reg_t → Nat
  | REG_STATUS => r.status
  | REG_CFG_SCR => r.scr
  | REG_CFG_DATA_0 => r.data_0
  | REG_CFG_DATA_1 => r.data_1
  | REG_CFG_CMD => r.cmd
  | REG_CFG_VERSION => r.version

/-- Store into the cell of a register. -/
def fpga_regs.write (r : fpga_regs) : fpga_reg_t → Nat → fpga_regs
  | REG_STATUS, v => { r with status := v }
  | REG_CFG_SCR, v => { r with scr := v }
  | REG_CFG_DATA_0, v => { r with data_0 := v }
  | REG_CFG_DATA_1, v => { r with data_1 := v }
  | REG_CFG_CMD, v => { r with cmd := v }
  | REG_CFG_VERSION, v => { r with version := v }

@[simp] def DD_MODE_DISABLED : Nat := 0
@[simp] def DD_MODE_REGS : Nat := 1
@[simp] def DD_MODE_IPL : Nat := 2
@[simp] def DD_MODE_FULL : Nat := 3

@[simp] def BOOT_MODE_MENU_SD : Nat := 0
@[simp] def BOOT_MODE_MENU_USB : Nat := 1
@[simp] def BOOT_MODE_ROM : Nat := 2
@[simp] def BOOT_MODE_DD : Nat := 3
@[simp] def BOOT_MODE_DIRECT : Nat := 4

@[simp] def SAVE_TYPE_NONE : Nat := 0
@[simp] def SAVE_TYPE_EEPROM_4K : Nat := 1
@[simp] def SAVE_TYPE_EEPROM_16K : Nat := 2
@[simp] def SAVE_TYPE_SRAM : Nat := 3
@[simp] def SAVE_TYPE_FLASHRAM : Nat := 4
@[simp] def SAVE_TYPE_SRAM_BANKED : Nat := 5

@[simp] def CIC_SEED_UNKNOWN : Nat := 0xFFFF

@[simp] def TV_TYPE_PAL : Nat := 0
@[simp] def TV_TYPE_NTSC : Nat := 1
@[simp] def TV_TYPE_MPAL : Nat := 2
@[simp] def TV_TYPE_UNKNOWN : Nat := 3

@[simp] def CFG_ID_BOOTLOADER_SWITCH : Nat := 0
@[simp] def CFG_ID_ROM_WRITE_ENABLE : Nat := 1
@[simp] def CFG_ID_ROM_SHADOW_ENABLE : Nat := 2
@[simp] def CFG_ID_DD_MODE : Nat := 3
@[simp] def CFG_ID_ISV_ENABLE : Nat := 4
@[simp] def CFG_ID_BOOT_MODE : Nat := 5
@[simp] def CFG_ID_SAVE_TYPE : Nat := 6
@[simp] def CFG_ID_CIC_SEED : Nat := 7
@[simp] def CFG_ID_TV_TYPE : Nat := 8
@[simp] def CFG_ID_FLASH_ERASE_BLOCK : Nat := 9
@[simp] def CFG_ID_DD_DRIVE_TYPE : Nat := 10
@[simp] def CFG_ID_DD_DISK_STATE : Nat := 11

/-- The enumeration `cfg_error_t` is signed: its values are `int`s. -/
@[simp] def CFG_ERROR_OK : Int := 0
@[simp] def CFG_ERROR_BAD_ADDRESS : Int := 1
@[simp] def CFG_ERROR_BAD_CONFIG_ID : Int := 2
@[simp] def CFG_ERROR_TIMEOUT : Int := 3
@[simp] def CFG_ERROR_UNKNOWN_CMD : Int := -1

/-- The global `struct process p`. -/
structure process where
  boot_mode : Nat
  save_type : Nat
  cic_seed : Nat
  tv_type : Nat
  usb_output_ready : Bool
deriving DecidableEq, Repr

/-- Modelled from the spec: the clock reading `rtc_time_t` of `rtc.h`, which is not among
the sources at hand.  The seven fields are those `cfg.c` accesses (section 4.4 of the
specification). -/
structure rtc_time_t where
  second : Nat
  minute : Nat
  hour : Nat
  weekday : Nat
  day : Nat
  month : Nat
  year : Nat
deriving DecidableEq, Repr

/-- The functions of `cfg.c` that are handed out as completion callbacks. -/
inductive callback_t where
  | cfg_set_usb_output_ready
deriving DecidableEq, Repr

/-- Modelled from the spec: the packet descriptor `usb_tx_info_t` of `usb.h`, which is not
among the sources at hand.  The fields are those `cfg.c` assigns, and `cmd` is what
`usb_create_packet` is given. -/
structure usb_tx_info_t where
  cmd : Nat
  dma_length : Nat
  dma_address : Nat
  done_callback : Option callback_t
deriving DecidableEq, Repr

/-- What one run of the firmware does to the outside: stores to FPGA registers and
calls into the other modules, each with the arguments passed. -/
inductive Event where
  | reg_set (reg : fpga_reg_t) (value : Nat)
  | isv_get_enabled
  | isv_set_enabled (value : Nat)
  | dd_get_drive_type
  | dd_set_drive_type (value : Nat)
  | dd_get_disk_state
  | dd_set_disk_state (value : Nat)
  | flash_erase_block (block : Nat)
  | rtc_get_time
  | rtc_set_time (t : rtc_time_t)
  | usb_prepare_read (args : Nat × Nat)
  | usb_create_packet (cmd : Nat)
  | usb_enqueue_packet (info : usb_tx_info_t)
  | usb_get_read_info
deriving DecidableEq, Repr

/-- The answers of the other firmware modules during one run: what the getters return,
what `usb_prepare_read` and `usb_get_read_info` leave in `args`, and whether the USB
module takes the packet. -/
structure Collab where
  isv_get_enabled : Nat
  dd_get_drive_type : Nat
  dd_get_disk_state : Nat
  rtc_get_time : rtc_time_t
  usb_prepare_read : Nat × Nat → Bool × (Nat × Nat)
  usb_enqueue_packet : usb_tx_info_t → Bool
  usb_get_read_info : Nat × Nat → Nat × Nat

/-- The state the firmware runs on: the register file, the global `p`, and the log of
what has been done to the outside so far (oldest event first). -/
structure Machine where
  regs : fpga_regs
  p : process
  log : List Event
deriving DecidableEq, Repr

/-! ## The functions of `cfg.c` -/

/-- Modelled from the spec: the register primitive `fpga_reg_get` of `fpga.c`, which is
not among the sources at hand: an ordered, uncached `uint32_t` load from a register. -/
def fpga_reg_get (m : Machine) (reg : fpga_reg_t) : Nat := u32 (m.regs.read reg)

/-- Modelled from the spec: the register primitive `fpga_reg_set` of `fpga.c`, which is
not among the sources at hand: an ordered `uint32_t` store to a register.  The store is
also entered in the log. -/
def fpga_reg_set (reg : fpga_reg_t) (value : Nat) (m : Machine) : Machine :=
  { m with regs := m.regs.write reg (u32 value), log := m.log ++ [Event.reg_set reg (u32 value)] }

/-- Record a call into another module. -/
def call (e : Event) (m : Machine) : Machine := { m with log := m.log ++ [e] }

def cfg_set_usb_output_ready (m : Machine) : Machine :=
  { m with p := { m.p with usb_output_ready := true } }

/-- The result is the returned flag (`true` = rejected) and the array `args` afterwards. -/
def cfg_translate_address (args : Nat × Nat) : Bool × (Nat × Nat) :=
  let address := args.1
  let length := args.2
  if address ≥ 0x10000000 ∧ address < 0x14000000 ∧ add32 address length ≤ 0x14000000 then
    (false, (add32 (sub32 address 0x10000000) 0x00000000, args.2))
  else if address ≥ 0x1FFE0000 ∧ address < 0x1FFE2000 ∧ add32 address length ≤ 0x1FFE2000 then
    (false, (add32 (sub32 address 0x1FFE0000) 0x05000000, args.2))
  else
    (true, args)

def cfg_set_error (k : Consts) (error : Int) (m : Machine) : Machine :=
  let m := fpga_reg_set REG_CFG_DATA_0 (u32_of_int error) m
  let m := fpga_reg_set REG_CFG_DATA_1 0 m
  fpga_reg_set REG_CFG_CMD (k.CFG_CMD_ERROR ||| k.CFG_CMD_DONE) m

def cfg_change_scr_bits (mask : Nat) (value : Bool) (m : Machine) : Machine :=
  if value then
    fpga_reg_set REG_CFG_SCR (fpga_reg_get m REG_CFG_SCR ||| mask) m
  else
    fpga_reg_set REG_CFG_SCR (fpga_reg_get m REG_CFG_SCR &&& not32 mask) m

/-- The local `save_reset_mask` of `cfg_set_save_type`. -/
def save_reset_mask (k : Consts) : Nat :=
  k.CFG_SCR_EEPROM_16K ||| k.CFG_SCR_EEPROM_ENABLED ||| k.CFG_SCR_FLASHRAM_ENABLED |||
    k.CFG_SCR_SRAM_BANKED ||| k.CFG_SCR_SRAM_ENABLED

def cfg_set_save_type (k : Consts) (save_type : Nat) (m : Machine) : Machine :=
  let m := cfg_change_scr_bits (save_reset_mask k) false m
  let r : Machine × Nat :=
    if save_type = SAVE_TYPE_NONE then (m, save_type)
    else if save_type = SAVE_TYPE_EEPROM_4K then
      (cfg_change_scr_bits k.CFG_SCR_EEPROM_ENABLED true m, save_type)
    else if save_type = SAVE_TYPE_EEPROM_16K then
      (cfg_change_scr_bits (k.CFG_SCR_EEPROM_16K ||| k.CFG_SCR_EEPROM_ENABLED) true m, save_type)
    else if save_type = SAVE_TYPE_SRAM then
      (cfg_change_scr_bits k.CFG_SCR_SRAM_ENABLED true m, save_type)
    else if save_type = SAVE_TYPE_FLASHRAM then
      (cfg_change_scr_bits k.CFG_SCR_FLASHRAM_ENABLED true m, save_type)
    else if save_type = SAVE_TYPE_SRAM_BANKED then
      (cfg_change_scr_bits (k.CFG_SCR_SRAM_BANKED ||| k.CFG_SCR_SRAM_ENABLED) true m, save_type)
    else (m, SAVE_TYPE_NONE)
  { r.1 with p := { r.1.p with save_type := r.2 } }

def cfg_get_version (m : Machine) : Nat := fpga_reg_get m REG_CFG_VERSION

/-- The result is the returned flag (`true` = unknown id), `args` afterwards and the
machine afterwards. -/
def cfg_query (k : Consts) (w : Collab) (args : Nat × Nat) (m : Machine) :
    Bool × (Nat × Nat) × Machine :=
  let scr := fpga_reg_get m REG_CFG_SCR
  if args.1 = CFG_ID_BOOTLOADER_SWITCH then
    (false, (args.1, scr &&& k.CFG_SCR_BOOTLOADER_ENABLED), m)
  else if args.1 = CFG_ID_ROM_WRITE_ENABLE then
    (false, (args.1, scr &&& k.CFG_SCR_ROM_WRITE_ENABLED), m)
  else if args.1 = CFG_ID_ROM_SHADOW_ENABLE then
    (false, (args.1, scr &&& k.CFG_SCR_ROM_SHADOW_ENABLED), m)
  else if args.1 = CFG_ID_DD_MODE then
    let a1 := DD_MODE_DISABLED
    let a1 := if scr &&& k.CFG_SCR_DDIPL_ENABLED ≠ 0 then a1 ||| DD_MODE_IPL else a1
    let a1 := if scr &&& k.CFG_SCR_DD_ENABLED ≠ 0 then a1 ||| DD_MODE_REGS else a1
    (false, (args.1, a1), m)
  else if args.1 = CFG_ID_ISV_ENABLE then
    (false, (args.1, u32 w.isv_get_enabled), call Event.isv_get_enabled m)
  else if args.1 = CFG_ID_BOOT_MODE then
    (false, (args.1, m.p.boot_mode), m)
  else if args.1 = CFG_ID_SAVE_TYPE then
    (false, (args.1, m.p.save_type), m)
  else if args.1 = CFG_ID_CIC_SEED then
    (false, (args.1, m.p.cic_seed), m)
  else if args.1 = CFG_ID_TV_TYPE then
    (false, (args.1, m.p.tv_type), m)
  else if args.1 = CFG_ID_FLASH_ERASE_BLOCK then
    (false, (args.1, 0xFFFFFFFF), m)
  else if args.1 = CFG_ID_DD_DRIVE_TYPE then
    (false, (args.1, u32 w.dd_get_drive_type), call Event.dd_get_drive_type m)
  else if args.1 = CFG_ID_DD_DISK_STATE then
    (false, (args.1, u32 w.dd_get_disk_state), call Event.dd_get_disk_state m)
  else
    (true, args, m)

/-- The result is the returned flag (`true` = unknown id), `args` afterwards and the
machine afterwards. -/
def cfg_update (k : Consts) (args : Nat × Nat) (m : Machine) : Bool × (Nat × Nat) × Machine :=
  if args.1 = CFG_ID_BOOTLOADER_SWITCH then
    (false, args, cfg_change_scr_bits k.CFG_SCR_BOOTLOADER_ENABLED (args.2 != 0) m)
  else if args.1 = CFG_ID_ROM_WRITE_ENABLE then
    (false, args, cfg_change_scr_bits k.CFG_SCR_ROM_WRITE_ENABLED (args.2 != 0) m)
  else if args.1 = CFG_ID_ROM_SHADOW_ENABLE then
    (false, args, cfg_change_scr_bits k.CFG_SCR_ROM_SHADOW_ENABLED (args.2 != 0) m)
  else if args.1 = CFG_ID_DD_MODE then
    if args.2 = DD_MODE_DISABLED then
      (false, args, cfg_change_scr_bits (k.CFG_SCR_DD_ENABLED ||| k.CFG_SCR_DDIPL_ENABLED) false m)
    else if args.2 = DD_MODE_REGS then
      let m := cfg_change_scr_bits k.CFG_SCR_DD_ENABLED true m
      (false, args, cfg_change_scr_bits k.CFG_SCR_DDIPL_ENABLED false m)
    else if args.2 = DD_MODE_IPL then
      let m := cfg_change_scr_bits k.CFG_SCR_DD_ENABLED false m
      (false, args, cfg_change_scr_bits k.CFG_SCR_DDIPL_ENABLED true m)
    else
      (false, args, cfg_change_scr_bits (k.CFG_SCR_DD_ENABLED ||| k.CFG_SCR_DDIPL_ENABLED) true m)
  else if args.1 = CFG_ID_ISV_ENABLE then
    (false, args, call (Event.isv_set_enabled args.2) m)
  else if args.1 = CFG_ID_BOOT_MODE then
    let m := { m with p := { m.p with boot_mode := args.2 } }
    (false, args, cfg_change_scr_bits k.CFG_SCR_BOOTLOADER_SKIP (args.2 == BOOT_MODE_DIRECT) m)
  else if args.1 = CFG_ID_SAVE_TYPE then
    (false, args, cfg_set_save_type k args.2 m)
  else if args.1 = CFG_ID_CIC_SEED then
    (false, args, { m with p := { m.p with cic_seed := args.2 &&& 0xFFFF } })
  else if args.1 = CFG_ID_TV_TYPE then
    (false, args, { m with p := { m.p with tv_type := args.2 &&& 0x03 } })
  else if args.1 = CFG_ID_FLASH_ERASE_BLOCK then
    (false, args, call (Event.flash_erase_block args.2) m)
  else if args.1 = CFG_ID_DD_DRIVE_TYPE then
    (false, args, call (Event.dd_set_drive_type args.2) m)
  else if args.1 = CFG_ID_DD_DISK_STATE then
    (false, args, call (Event.dd_set_disk_state args.2) m)
  else
    (true, args, m)

/-- The result is `args` afterwards and the machine afterwards. -/
def cfg_get_time (w : Collab) (_args : Nat × Nat) (m : Machine) : (Nat × Nat) × Machine :=
  let t := w.rtc_get_time
  let m := call Event.rtc_get_time m
  ((u32 ((t.hour <<< 16) ||| (t.minute <<< 8) ||| t.second),
    u32 ((t.weekday <<< 24) ||| (t.year <<< 16) ||| (t.month <<< 8) ||| t.day)), m)

/-- The reading `cfg_set_time` builds from `args` before it calls `rtc_set_time`. -/
def cfg_set_time_reading (args : Nat × Nat) : rtc_time_t :=
  { second := args.1 &&& 0xFF
    minute := (args.1 >>> 8) &&& 0xFF
    hour := (args.1 >>> 16) &&& 0xFF
    weekday := (args.2 >>> 24) &&& 0xFF
    day := args.2 &&& 0xFF
    month := (args.2 >>> 8) &&& 0xFF
    year := (args.2 >>> 16) &&& 0xFF }

def cfg_set_time (args : Nat × Nat) (m : Machine) : Machine :=
  call (Event.rtc_set_time (cfg_set_time_reading args)) m

def cfg_init (k : Consts) (m : Machine) : Machine :=
  let m := fpga_reg_set REG_CFG_SCR 0 m
  let m := cfg_set_save_type k SAVE_TYPE_NONE m
  { m with p := { m.p with cic_seed := CIC_SEED_UNKNOWN, tv_type := TV_TYPE_UNKNOWN,
                           boot_mode := BOOT_MODE_MENU_SD, usb_output_ready := true } }

/-- How a case of the `switch` in `cfg_process` ends: with `break`, carrying `args`, or
with `return`. -/
inductive Outcome where
  | brk (args : Nat × Nat) (m : Machine)
  | ret (m : Machine)
deriving DecidableEq, Repr

/-- The `switch (cmd)` of `cfg_process`. -/
def cfg_process_switch (k : Consts) (w : Collab) (cmd : Nat) (args : Nat × Nat) (m : Machine) :
    Outcome :=
  if cmd = 'v'.toNat then
    Outcome.brk (cfg_get_version m, args.2) m
  else if cmd = 'c'.toNat then
    let r := cfg_query k w args m
    if r.1 then Outcome.ret (cfg_set_error k CFG_ERROR_BAD_CONFIG_ID r.2.2)
    else Outcome.brk r.2.1 r.2.2
  else if cmd = 'C'.toNat then
    let r := cfg_update k args m
    if r.1 then Outcome.ret (cfg_set_error k CFG_ERROR_BAD_CONFIG_ID r.2.2)
    else Outcome.brk r.2.1 r.2.2
  else if cmd = 't'.toNat then
    let r := cfg_get_time w args m
    Outcome.brk r.1 r.2
  else if cmd = 'T'.toNat then
    Outcome.brk args (cfg_set_time args m)
  else if cmd = 'm'.toNat then
    let r := cfg_translate_address args
    if r.1 then Outcome.ret (cfg_set_error k CFG_ERROR_BAD_ADDRESS m)
    else
      let a := w.usb_prepare_read r.2
      let m := call (Event.usb_prepare_read r.2) m
      if !a.1 then Outcome.ret m
      else Outcome.brk (u32 a.2.1, u32 a.2.2) m
  else if cmd = 'M'.toNat then
    let r := cfg_translate_address args
    if r.1 then Outcome.ret (cfg_set_error k CFG_ERROR_BAD_ADDRESS m)
    else
      let args := r.2
      let m := call (Event.usb_create_packet k.PACKET_CMD_USB_OUTPUT) m
      let packet_info : usb_tx_info_t :=
        { cmd := k.PACKET_CMD_USB_OUTPUT
          dma_length := args.2
          dma_address := args.1
          done_callback := some callback_t.cfg_set_usb_output_ready }
      let accepted := w.usb_enqueue_packet packet_info
      let m := call (Event.usb_enqueue_packet packet_info) m
      if accepted then
        Outcome.brk args { m with p := { m.p with usb_output_ready := false } }
      else Outcome.ret m
  else if cmd = 'u'.toNat then
    let a := w.usb_get_read_info args
    Outcome.brk (u32 a.1, u32 a.2) (call Event.usb_get_read_info m)
  else if cmd = 'U'.toNat then
    Outcome.brk ((if m.p.usb_output_ready then 1 else 0), args.2) m
  else
    Outcome.ret (cfg_set_error k CFG_ERROR_UNKNOWN_CMD m)

def cfg_process (k : Consts) (w : Collab) (m : Machine) : Machine :=
  if fpga_reg_get m REG_STATUS &&& k.STATUS_CFG_PENDING ≠ 0 then
    let args := (fpga_reg_get m REG_CFG_DATA_0, fpga_reg_get m REG_CFG_DATA_1)
    let cmd := fpga_reg_get m REG_CFG_CMD % 256
    match cfg_process_switch k w cmd args m with
    | Outcome.ret m => m
    | Outcome.brk args m =>
      let m := fpga_reg_set REG_CFG_DATA_0 args.1 m
      let m := fpga_reg_set REG_CFG_DATA_1 args.2 m
      fpga_reg_set REG_CFG_CMD k.CFG_CMD_DONE m
  else m

/-! ## Reading a request and a log -/

/-- The test on the status register that opens `cfg_process`: a request is pending. -/
def pending (k : Consts) (m : Machine) : Prop :=
  fpga_reg_get m REG_STATUS &&& k.STATUS_CFG_PENDING ≠ 0

instance (k : Consts) (m : Machine) : Decidable (pending k m) := by
  unfold pending; infer_instance

/-- The two argument words `cfg_process` reads from the data registers. -/
def request_args (m : Machine) : Nat × Nat :=
  (fpga_reg_get m REG_CFG_DATA_0, fpga_reg_get m REG_CFG_DATA_1)

/-- The command byte `cfg_process` reads: the command register converted to `char`. -/
def request_cmd (m : Machine) : Nat := fpga_reg_get m REG_CFG_CMD % 256

/-- The packet `cfg_process` hands to `usb_enqueue_packet` for the translated `args`. -/
def output_packet (k : Consts) (args : Nat × Nat) : usb_tx_info_t :=
  { cmd := k.PACKET_CMD_USB_OUTPUT
    dma_length := args.2
    dma_address := args.1
    done_callback := some callback_t.cfg_set_usb_output_ready }

/-- The register stores among a list of events, in the order they happened. -/
def reg_writes : List Event → List (fpga_reg_t × Nat)
  | [] => []
  | Event.reg_set reg value :: es => (reg, value) :: reg_writes es
  | _ :: es => reg_writes es

/-- The calls into other modules among a list of events: everything that is not a
register store. -/
def collab_calls : List Event → List Event
  | [] => []
  | Event.reg_set _ _ :: es => collab_calls es
  | e :: es => e :: collab_calls es

/-- The stores to the three mailbox registers (result 0, result 1, command) among a list
of events. -/
def mailbox_writes (es : List Event) : List (fpga_reg_t × Nat) :=
  (reg_writes es).filter
    (fun x => x.1 = REG_CFG_DATA_0 ∨ x.1 = REG_CFG_DATA_1 ∨ x.1 = REG_CFG_CMD)

/-- Every register store in `es` goes to the control register. -/
def only_scr_writes (es : List Event) : Prop :=
  ∀ x ∈ reg_writes es, x.1 = REG_CFG_SCR

/-- The machine `m2` is `m1` after more events, whose register stores all go to the control register. -/
def scr_extends (m m2 : Machine) : Prop :=
  ∃ es, m2.log = m.log ++ es ∧ only_scr_writes es

/-- The machine `m2` is `m` after more events, none of them a register store. -/
def quiet_extends (m m2 : Machine) : Prop :=
  ∃ es, m2.log = m.log ++ es ∧ reg_writes es = []

/-! ## The control register and the runs of the firmware -/

/-- The eleven flag masks of the control register. -/
def scr_masks (k : Consts) : List Nat :=
  [k.CFG_SCR_BOOTLOADER_ENABLED, k.CFG_SCR_BOOTLOADER_SKIP, k.CFG_SCR_ROM_WRITE_ENABLED,
   k.CFG_SCR_ROM_SHADOW_ENABLED, k.CFG_SCR_DD_ENABLED, k.CFG_SCR_DDIPL_ENABLED,
   k.CFG_SCR_EEPROM_ENABLED, k.CFG_SCR_EEPROM_16K, k.CFG_SCR_FLASHRAM_ENABLED,
   k.CFG_SCR_SRAM_BANKED, k.CFG_SCR_SRAM_ENABLED]

/-- The flag masks of the control register are 32-bit values no two of which share a
bit. -/
def scr_masks_disjoint (k : Consts) : Prop :=
  (∀ x ∈ scr_masks k, x < 4294967296) ∧ (scr_masks k).Pairwise (fun a b => a &&& b = 0)

instance (k : Consts) : Decidable (scr_masks_disjoint k) := by
  unfold scr_masks_disjoint; infer_instance

/-- The Save-Type Bit Mapper in the words of the specification (section 4.5): the bit
combination of a save type (none: no bits; 4K-EEPROM: enable bit only; 16K-EEPROM:
enable + 16K-size bit; SRAM: enable bit; FlashRAM: enable bit; banked-SRAM: enable +
banked bit; anything else counts as none). -/
def spec_save_type_bits (k : Consts) (save_type : Nat) : Nat :=
  if save_type = SAVE_TYPE_EEPROM_4K then k.CFG_SCR_EEPROM_ENABLED
  else if save_type = SAVE_TYPE_EEPROM_16K then k.CFG_SCR_EEPROM_ENABLED ||| k.CFG_SCR_EEPROM_16K
  else if save_type = SAVE_TYPE_SRAM then k.CFG_SCR_SRAM_ENABLED
  else if save_type = SAVE_TYPE_FLASHRAM then k.CFG_SCR_FLASHRAM_ENABLED
  else if save_type = SAVE_TYPE_SRAM_BANKED then k.CFG_SCR_SRAM_ENABLED ||| k.CFG_SCR_SRAM_BANKED
  else 0

/-- One step of the system around `cfg.c`: the main loop polls `cfg_process` (the
collaborators answering anything), the USB module calls the completion callback, or the
host (and the mailbox hardware) changes the status, command and data registers. -/
inductive Step (k : Consts) : Machine → Machine → Prop where
  | poll (w : Collab) (m : Machine) : Step k m (cfg_process k w m)
  | usb_done (m : Machine) : Step k m (cfg_set_usb_output_ready m)
  | host (m : Machine) (status cmd data_0 data_1 : Nat) :
      Step k m
        { m with regs := { m.regs with status := status, cmd := cmd, data_0 := data_0,
                                       data_1 := data_1 } }

/-- The machines that can be reached from `cfg_init`, run on any machine. -/
inductive Reachable (k : Consts) : Machine → Prop where
  | init (m0 : Machine) : Reachable k (cfg_init k m0)
  | step {m m2 : Machine} : Reachable k m → Step k m m2 → Reachable k m2

/-- What a run of the firmware, started on `m` with the arguments `args` and ended on
`m2`, may have done to the control register and the configuration state: nothing, or
cleared `usb_output_ready`, or what `cfg_update` does. -/
def poll_effect (k : Consts) (args : Nat × Nat) (m m2 : Machine) : Prop :=
  (m2.regs.scr = m.regs.scr ∧
    (m2.p = m.p ∨ m2.p = { m.p with usb_output_ready := false })) ∨
  (m2.regs.scr = (cfg_update k args m).2.2.regs.scr ∧ m2.p = (cfg_update k args m).2.2.p)

/-- The save flags of the control register are those of the stored save type, which is
one of the six of the enumeration. -/
def save_type_consistent (k : Consts) (m : Machine) : Prop :=
  m.p.save_type ≤ 5 ∧
    m.regs.scr &&& save_reset_mask k = spec_save_type_bits k m.p.save_type

/-- The properties this core holds itself, in the control register or in `p`: bootloader
switch, ROM write-enable, ROM shadow-enable, disk mode, boot mode, save type, CIC seed,
TV type. -/
def held_ids : List Nat :=
  [CFG_ID_BOOTLOADER_SWITCH, CFG_ID_ROM_WRITE_ENABLE, CFG_ID_ROM_SHADOW_ENABLE,
   CFG_ID_DD_MODE, CFG_ID_BOOT_MODE, CFG_ID_SAVE_TYPE, CFG_ID_CIC_SEED, CFG_ID_TV_TYPE]

/-- The masks `cfg_update` passes to `cfg_change_scr_bits` for a property id. -/
def touched_masks (k : Consts) (id : Nat) : List Nat :=
  if id = CFG_ID_BOOTLOADER_SWITCH then [k.CFG_SCR_BOOTLOADER_ENABLED]
  else if id = CFG_ID_ROM_WRITE_ENABLE then [k.CFG_SCR_ROM_WRITE_ENABLED]
  else if id = CFG_ID_ROM_SHADOW_ENABLE then [k.CFG_SCR_ROM_SHADOW_ENABLED]
  else if id = CFG_ID_DD_MODE then [k.CFG_SCR_DD_ENABLED, k.CFG_SCR_DDIPL_ENABLED]
  else if id = CFG_ID_BOOT_MODE then [k.CFG_SCR_BOOTLOADER_SKIP]
  else if id = CFG_ID_SAVE_TYPE then [save_reset_mask k]
  else []

/-- The masks `cfg_query` tests the control register with for a property id. -/
def read_masks (k : Consts) (id : Nat) : List Nat :=
  if id = CFG_ID_BOOTLOADER_SWITCH then [k.CFG_SCR_BOOTLOADER_ENABLED]
  else if id = CFG_ID_ROM_WRITE_ENABLE then [k.CFG_SCR_ROM_WRITE_ENABLED]
  else if id = CFG_ID_ROM_SHADOW_ENABLE then [k.CFG_SCR_ROM_SHADOW_ENABLED]
  else if id = CFG_ID_DD_MODE then [k.CFG_SCR_DD_ENABLED, k.CFG_SCR_DDIPL_ENABLED]
  else []

/-! ## Concrete inputs -/

/-- One assignment of the constants, used to evaluate the model at concrete inputs: every
flag is a bit of its own. -/
def sample_consts : Consts :=
  { STATUS_CFG_PENDING := 0x100
    CFG_CMD_DONE := 0x40000000
    CFG_CMD_ERROR := 0x80000000
    CFG_SCR_BOOTLOADER_ENABLED := 0x001
    CFG_SCR_BOOTLOADER_SKIP := 0x002
    CFG_SCR_ROM_WRITE_ENABLED := 0x004
    CFG_SCR_ROM_SHADOW_ENABLED := 0x008
    CFG_SCR_DD_ENABLED := 0x010
    CFG_SCR_DDIPL_ENABLED := 0x020
    CFG_SCR_EEPROM_ENABLED := 0x040
    CFG_SCR_EEPROM_16K := 0x080
    CFG_SCR_FLASHRAM_ENABLED := 0x100
    CFG_SCR_SRAM_BANKED := 0x200
    CFG_SCR_SRAM_ENABLED := 0x400
    PACKET_CMD_USB_OUTPUT := 0x55 }

/-- Collaborators whose USB side is busy: no read window can be prepared and no packet
is taken. -/
def busy_collab : Collab :=
  { isv_get_enabled := 0
    dd_get_drive_type := 0
    dd_get_disk_state := 0
    rtc_get_time := { second := 30, minute := 15, hour := 9, weekday := 3, day := 21,
                      month := 6, year := 23 }
    usb_prepare_read := fun args => (false, args)
    usb_enqueue_packet := fun _ => false
    usb_get_read_info := fun args => args }

/-- Collaborators whose USB side is free. -/
def free_collab : Collab :=
  { busy_collab with
    usb_prepare_read := fun args => (true, args)
    usb_enqueue_packet := fun _ => true }

/-- A machine right after `cfg_init` (for `sample_consts`) on which the host has posted
the request `cmd`, `arg0`, `arg1`. -/
def posted (cmd arg0 arg1 : Nat) : Machine :=
  let m := cfg_init sample_consts
    { regs := { status := 0, scr := 0, data_0 := 0, data_1 := 0, cmd := 0, version := 0x53437632 }
      p := { boot_mode := 0, save_type := 0, cic_seed := 0, tv_type := 0,
             usb_output_ready := false }
      log := [] }
  { m with regs := { m.regs with status := 0x100, cmd := cmd, data_0 := arg0, data_1 := arg1 } }

/-! ## The address translator -/

/-- The body of `cfg_translate_address`, with the locals `address` and `length`
replaced by their values. -/
theorem cfg_translate_address_eq (address length : Nat) :
    cfg_translate_address (address, length) =
      if address ≥ 0x10000000 ∧ address < 0x14000000 ∧
          (address + length) % 4294967296 ≤ 0x14000000 then
        (false, (add32 (sub32 address 0x10000000) 0x00000000, length))
      else if address ≥ 0x1FFE0000 ∧ address < 0x1FFE2000 ∧
          (address + length) % 4294967296 ≤ 0x1FFE2000 then
        (false, (add32 (sub32 address 0x1FFE0000) 0x05000000, length))
      else
        (true, (address, length)) := rfl

/-- The window test of `cfg_translate_address`, with the sum as the code computes it:
the translator accepts exactly when the address lies in one of the two windows and the
32-bit (wrapped) sum of address and length does not exceed the end of that window. -/
theorem cfg_translate_address_accepts_iff (address length : Nat) :
    (cfg_translate_address (address, length)).1 = false ↔
      (0x10000000 ≤ address ∧ address < 0x14000000 ∧
          (address + length) % 4294967296 ≤ 0x14000000) ∨
      (0x1FFE0000 ≤ address ∧ address < 0x1FFE2000 ∧
          (address + length) % 4294967296 ≤ 0x1FFE2000) := by
  rw [cfg_translate_address_eq]
  split_ifs with h1 h2
  · simp only [true_iff]; left; exact h1
  · simp only [true_iff]; right; exact h2
  · simp only [Bool.true_eq_false, false_iff]
    rintro (h | h)
    · exact h1 h
    · exact h2 h

/-- C1, evaluated at address `0x10000000`, length `0xFFFFFFFF`: the true end of the
request, `0x10FFFFFFFF`, lies far beyond the end `0x14000000` of window A (and the
address is not in window B), yet `cfg_translate_address` returns `false` (accepts) and
translates the address to `0`, because the sum it compares wraps to `0x0FFFFFFF`. -/
theorem C1_wrapped_sum_accepted :
    cfg_translate_address (0x10000000, 0xFFFFFFFF) = (false, (0, 0xFFFFFFFF)) ∧
      add32 0x10000000 0xFFFFFFFF = 0x0FFFFFFF ∧
      ¬ ((0x10000000 ≤ 0x10000000 ∧ 0x10000000 < 0x14000000 ∧
            0x10000000 + 0xFFFFFFFF ≤ 0x14000000) ∨
         (0x1FFE0000 ≤ 0x10000000 ∧ 0x10000000 < 0x1FFE2000 ∧
            0x10000000 + 0xFFFFFFFF ≤ 0x1FFE2000)) := by
  decide

/-- C2: whenever `cfg_translate_address` accepts a 32-bit address and length, `args[0]`
afterwards is `address - 0x10000000` if the address lies in window A and
`address - 0x1FFE0000 + 0x05000000` if it lies in window B, and `args[1]` is still the
length; and `translate(0x10000000, 0x100)` is accepted with `args[0] = 0`. -/
theorem C2_translated_address (address length : Nat)
    (ha : address < 4294967296) (_hl : length < 4294967296)
    (hacc : (cfg_translate_address (address, length)).1 = false) :
    (0x10000000 ≤ address ∧ address < 0x14000000 →
        (cfg_translate_address (address, length)).2.1 = address - 0x10000000) ∧
      (0x1FFE0000 ≤ address ∧ address < 0x1FFE2000 →
        (cfg_translate_address (address, length)).2.1 = address - 0x1FFE0000 + 0x05000000) ∧
      (cfg_translate_address (address, length)).2.2 = length ∧
      cfg_translate_address (0x10000000, 0x100) = (false, (0x00000000, 0x100)) := by
  rw [cfg_translate_address_eq] at hacc ⊢
  split_ifs at hacc ⊢ with h1 h2
  · refine ⟨fun _ => ?_, fun hB => ?_, rfl, by decide⟩
    · show add32 (sub32 address 0x10000000) 0 = _
      unfold add32 sub32
      omega
    · omega
  · refine ⟨fun hA => ?_, fun _ => ?_, rfl, by decide⟩
    · omega
    · show add32 (sub32 address 0x1FFE0000) 0x05000000 = _
      unfold add32 sub32
      omega

/-- Witness of C2 at `translate(0x13FFFF00, 0x100)`, a request that ends exactly at the
end of window A. -/
theorem C2_translated_address_witness :
    (cfg_translate_address (0x13FFFF00, 0x100)).1 = false ∧
      (cfg_translate_address (0x13FFFF00, 0x100)).2.1 = 0x13FFFF00 - 0x10000000 :=
  ⟨by decide,
    (C2_translated_address 0x13FFFF00 0x100 (by decide) (by decide) (by decide)).1
      (by decide)⟩

/-- C3: for an address in neither window and any length, `cfg_translate_address` returns
`true` (rejects) and leaves `args[0]` and `args[1]` as they were; and
`translate(0x20000000, 0x10)` is rejected. -/
theorem C3_outside_windows_rejected (address length : Nat)
    (hA : ¬ (0x10000000 ≤ address ∧ address < 0x14000000))
    (hB : ¬ (0x1FFE0000 ≤ address ∧ address < 0x1FFE2000)) :
    cfg_translate_address (address, length) = (true, (address, length)) ∧
      (cfg_translate_address (0x20000000, 0x10)).1 = true := by
  refine ⟨?_, by decide⟩
  rw [cfg_translate_address_eq, if_neg (fun h => hA ⟨h.1, h.2.1⟩),
    if_neg (fun h => hB ⟨h.1, h.2.1⟩)]

/-- Witness of C3 at address `0x14000000`, the first address after window A. -/
theorem C3_outside_windows_rejected_witness :
    cfg_translate_address (0x14000000, 0) = (true, (0x14000000, 0)) :=
  (C3_outside_windows_rejected 0x14000000 0 (by decide) (by decide)).1

/-! ## Basic facts about the machine operations -/

@[simp] theorem fpga_reg_set_p (reg : fpga_reg_t) (value : Nat) (m : Machine) :
    (fpga_reg_set reg value m).p = m.p := rfl

@[simp] theorem fpga_reg_set_log (reg : fpga_reg_t) (value : Nat) (m : Machine) :
    (fpga_reg_set reg value m).log = m.log ++ [Event.reg_set reg (u32 value)] := rfl

@[simp] theorem fpga_reg_set_regs (reg : fpga_reg_t) (value : Nat) (m : Machine) :
    (fpga_reg_set reg value m).regs = m.regs.write reg (u32 value) := rfl

@[simp] theorem call_p (e : Event) (m : Machine) : (call e m).p = m.p := rfl

@[simp] theorem call_log (e : Event) (m : Machine) : (call e m).log = m.log ++ [e] := rfl

@[simp] theorem call_regs (e : Event) (m : Machine) : (call e m).regs = m.regs := rfl

@[simp] theorem fpga_reg_get_call (e : Event) (m : Machine) (reg : fpga_reg_t) :
    fpga_reg_get (call e m) reg = fpga_reg_get m reg := rfl

theorem reg_writes_append (es fs : List Event) :
    reg_writes (es ++ fs) = reg_writes es ++ reg_writes fs := by
  induction es with
  | nil => rfl
  | cons e es ih => cases e <;> simp [reg_writes, ih]

theorem collab_calls_append (es fs : List Event) :
    collab_calls (es ++ fs) = collab_calls es ++ collab_calls fs := by
  induction es with
  | nil => rfl
  | cons e es ih => cases e <;> simp [collab_calls, ih]

/-- What `cfg_set_error` does: three register stores, in this order, and nothing else. -/
theorem cfg_set_error_eq (k : Consts) (error : Int) (m : Machine) :
    cfg_set_error k error m =
      { regs := { m.regs with data_0 := u32 (u32_of_int error), data_1 := 0,
                              cmd := u32 (k.CFG_CMD_ERROR ||| k.CFG_CMD_DONE) }
        p := m.p
        log := m.log ++ [Event.reg_set REG_CFG_DATA_0 (u32 (u32_of_int error)),
                         Event.reg_set REG_CFG_DATA_1 0,
                         Event.reg_set REG_CFG_CMD (u32 (k.CFG_CMD_ERROR ||| k.CFG_CMD_DONE))] } := by
  simp [cfg_set_error, fpga_reg_set, fpga_regs.write, u32]

/-! ## The dispatcher: deferral -/

/-- C4: with a request pending, a memory-window write (`'M'`) whose address the
translator accepts but whose packet `usb_enqueue_packet` refuses, and a memory-window
read-setup (`'m'`) whose address is accepted but for which `usb_prepare_read` reports
not ready, make `cfg_process` return without any register store: the register file
(result, command and control registers included) and the configuration state
(`usb_output_ready` included) are what they were, so the request is still pending and
the next poll reads the same command and arguments. -/
theorem C4_deferral_leaves_request_pending (k : Consts) (w : Collab) (m : Machine)
    (hp : pending k m)
    (hacc : (cfg_translate_address (request_args m)).1 = false)
    (hbusy :
      (request_cmd m = 'M'.toNat ∧
        w.usb_enqueue_packet (output_packet k (cfg_translate_address (request_args m)).2)
          = false) ∨
      (request_cmd m = 'm'.toNat ∧
        (w.usb_prepare_read (cfg_translate_address (request_args m)).2).1 = false)) :
    (cfg_process k w m).regs = m.regs ∧
      (cfg_process k w m).p = m.p ∧
      (∃ es, (cfg_process k w m).log = m.log ++ es ∧ reg_writes es = []) ∧
      pending k (cfg_process k w m) ∧
      request_cmd (cfg_process k w m) = request_cmd m ∧
      request_args (cfg_process k w m) = request_args m := by
  have hregs : (cfg_process k w m).regs = m.regs ∧ (cfg_process k w m).p = m.p ∧
      (∃ es, (cfg_process k w m).log = m.log ++ es ∧ reg_writes es = []) := by
    unfold pending at hp
    unfold request_args at hacc hbusy
    unfold request_cmd at hbusy
    rcases hbusy with ⟨hc, hb⟩ | ⟨hc, hb⟩
    · unfold output_packet at hb
      simp [cfg_process, cfg_process_switch, hp, hc, hacc, hb, reg_writes]
    · simp [cfg_process, cfg_process_switch, hp, hc, hacc, hb, reg_writes]
  refine ⟨hregs.1, hregs.2.1, hregs.2.2, ?_, ?_, ?_⟩
  · unfold pending fpga_reg_get at hp ⊢
    rw [hregs.1]; exact hp
  · unfold request_cmd fpga_reg_get
    rw [hregs.1]
  · unfold request_args fpga_reg_get
    rw [hregs.1]

/-- Witness of C4: right after initialisation the host posts `'M'` for the first 256
bytes of window A while the USB module is busy. -/
theorem C4_deferral_leaves_request_pending_witness :
    (cfg_process sample_consts busy_collab (posted 'M'.toNat 0x10000000 0x100)).regs =
        (posted 'M'.toNat 0x10000000 0x100).regs ∧
      (cfg_process sample_consts busy_collab (posted 'M'.toNat 0x10000000 0x100)).p =
        (posted 'M'.toNat 0x10000000 0x100).p :=
  have h := C4_deferral_leaves_request_pending sample_consts busy_collab
    (posted 'M'.toNat 0x10000000 0x100) (by decide) (by decide) (Or.inl ⟨by decide, rfl⟩)
  ⟨h.1, h.2.1⟩

/-! ## The log of register stores and calls -/

/-- What `cfg_change_scr_bits` does: one store to the control register. -/
theorem cfg_change_scr_bits_eq (mask : Nat) (value : Bool) (m : Machine) :
    cfg_change_scr_bits mask value m =
      fpga_reg_set REG_CFG_SCR
        (if value then fpga_reg_get m REG_CFG_SCR ||| mask
         else fpga_reg_get m REG_CFG_SCR &&& not32 mask) m := by
  cases value <;> rfl

theorem cfg_change_scr_bits_p (mask : Nat) (value : Bool) (m : Machine) :
    (cfg_change_scr_bits mask value m).p = m.p := by
  rw [cfg_change_scr_bits_eq]; rfl

theorem cfg_change_scr_bits_log (mask : Nat) (value : Bool) (m : Machine) :
    ∃ x, (cfg_change_scr_bits mask value m).log = m.log ++ [Event.reg_set REG_CFG_SCR x] := by
  rw [cfg_change_scr_bits_eq]; exact ⟨_, rfl⟩

@[simp] theorem cfg_change_scr_bits_true (mask : Nat) (m : Machine) :
    cfg_change_scr_bits mask true m =
      fpga_reg_set REG_CFG_SCR (fpga_reg_get m REG_CFG_SCR ||| mask) m := rfl

@[simp] theorem cfg_change_scr_bits_false (mask : Nat) (m : Machine) :
    cfg_change_scr_bits mask false m =
      fpga_reg_set REG_CFG_SCR (fpga_reg_get m REG_CFG_SCR &&& not32 mask) m := rfl

theorem scr_extends_refl (m : Machine) : scr_extends m m :=
  ⟨[], by simp, by simp [only_scr_writes, reg_writes]⟩

theorem scr_extends_trans {a b c : Machine} (h1 : scr_extends a b) (h2 : scr_extends b c) :
    scr_extends a c := by
  obtain ⟨e1, h1, p1⟩ := h1
  obtain ⟨e2, h2, p2⟩ := h2
  refine ⟨e1 ++ e2, by rw [h2, h1, List.append_assoc], ?_⟩
  intro x hx
  rw [reg_writes_append, List.mem_append] at hx
  rcases hx with hx | hx
  · exact p1 x hx
  · exact p2 x hx

theorem scr_extends_change (mask : Nat) (value : Bool) (m : Machine) :
    scr_extends m (cfg_change_scr_bits mask value m) := by
  obtain ⟨x, hx⟩ := cfg_change_scr_bits_log mask value m
  exact ⟨_, hx, by simp [only_scr_writes, reg_writes]⟩

theorem scr_extends_call (e : Event) (m : Machine) (h : reg_writes [e] = []) :
    scr_extends m (call e m) :=
  ⟨[e], rfl, by simp [only_scr_writes, h]⟩

theorem scr_extends_of_log_eq {m m2 : Machine} (h : m2.log = m.log) : scr_extends m m2 :=
  ⟨[], by simp [h], by simp [only_scr_writes, reg_writes]⟩

theorem cfg_set_save_type_log (k : Consts) (save_type : Nat) (m : Machine) :
    scr_extends m (cfg_set_save_type k save_type m) := by
  have h0 := scr_extends_change (save_reset_mask k) false m
  unfold cfg_set_save_type
  simp only []
  split_ifs
  all_goals first
    | exact scr_extends_trans h0 (scr_extends_of_log_eq rfl)
    | exact scr_extends_trans h0 (scr_extends_trans (scr_extends_change _ true _) (scr_extends_of_log_eq rfl))

theorem cfg_update_unknown (k : Consts) (id v : Nat) (m : Machine) (h : 12 ≤ id) :
    cfg_update k (id, v) m = (true, (id, v), m) := by
  have h0 : ¬ id = 0 := by omega
  have h1 : ¬ id = 1 := by omega
  have h2 : ¬ id = 2 := by omega
  have h3 : ¬ id = 3 := by omega
  have h4 : ¬ id = 4 := by omega
  have h5 : ¬ id = 5 := by omega
  have h6 : ¬ id = 6 := by omega
  have h7 : ¬ id = 7 := by omega
  have h8 : ¬ id = 8 := by omega
  have h9 : ¬ id = 9 := by omega
  have h10 : ¬ id = 10 := by omega
  have h11 : ¬ id = 11 := by omega
  simp [cfg_update, h0, h1, h2, h3, h4, h5, h6, h7, h8, h9, h10, h11]



/-! ### `cfg_update`, one property at a time -/

theorem cfg_update_bootloader_switch (k : Consts) (v : Nat) (m : Machine) :
    cfg_update k (CFG_ID_BOOTLOADER_SWITCH, v) m =
      (false, (CFG_ID_BOOTLOADER_SWITCH, v),
        cfg_change_scr_bits k.CFG_SCR_BOOTLOADER_ENABLED (v != 0) m) := rfl

theorem cfg_update_rom_write_enable (k : Consts) (v : Nat) (m : Machine) :
    cfg_update k (CFG_ID_ROM_WRITE_ENABLE, v) m =
      (false, (CFG_ID_ROM_WRITE_ENABLE, v),
        cfg_change_scr_bits k.CFG_SCR_ROM_WRITE_ENABLED (v != 0) m) := rfl

theorem cfg_update_rom_shadow_enable (k : Consts) (v : Nat) (m : Machine) :
    cfg_update k (CFG_ID_ROM_SHADOW_ENABLE, v) m =
      (false, (CFG_ID_ROM_SHADOW_ENABLE, v),
        cfg_change_scr_bits k.CFG_SCR_ROM_SHADOW_ENABLED (v != 0) m) := rfl

theorem cfg_update_dd_mode (k : Consts) (v : Nat) (m : Machine) :
    cfg_update k (CFG_ID_DD_MODE, v) m =
      (false, (CFG_ID_DD_MODE, v),
        if v = DD_MODE_DISABLED then
          cfg_change_scr_bits (k.CFG_SCR_DD_ENABLED ||| k.CFG_SCR_DDIPL_ENABLED) false m
        else if v = DD_MODE_REGS then
          cfg_change_scr_bits k.CFG_SCR_DDIPL_ENABLED false
            (cfg_change_scr_bits k.CFG_SCR_DD_ENABLED true m)
        else if v = DD_MODE_IPL then
          cfg_change_scr_bits k.CFG_SCR_DDIPL_ENABLED true
            (cfg_change_scr_bits k.CFG_SCR_DD_ENABLED false m)
        else
          cfg_change_scr_bits (k.CFG_SCR_DD_ENABLED ||| k.CFG_SCR_DDIPL_ENABLED) true m) := by
  show (if v = DD_MODE_DISABLED then _ else _) = _
  split_ifs <;> rfl

theorem cfg_update_isv_enable (k : Consts) (v : Nat) (m : Machine) :
    cfg_update k (CFG_ID_ISV_ENABLE, v) m =
      (false, (CFG_ID_ISV_ENABLE, v), call (Event.isv_set_enabled v) m) := rfl

theorem cfg_update_boot_mode (k : Consts) (v : Nat) (m : Machine) :
    cfg_update k (CFG_ID_BOOT_MODE, v) m =
      (false, (CFG_ID_BOOT_MODE, v),
        cfg_change_scr_bits k.CFG_SCR_BOOTLOADER_SKIP (v == BOOT_MODE_DIRECT)
          { m with p := { m.p with boot_mode := v } }) := rfl

theorem cfg_update_save_type (k : Consts) (v : Nat) (m : Machine) :
    cfg_update k (CFG_ID_SAVE_TYPE, v) m =
      (false, (CFG_ID_SAVE_TYPE, v), cfg_set_save_type k v m) := rfl

theorem cfg_update_cic_seed (k : Consts) (v : Nat) (m : Machine) :
    cfg_update k (CFG_ID_CIC_SEED, v) m =
      (false, (CFG_ID_CIC_SEED, v), { m with p := { m.p with cic_seed := v &&& 0xFFFF } }) := rfl

theorem cfg_update_tv_type (k : Consts) (v : Nat) (m : Machine) :
    cfg_update k (CFG_ID_TV_TYPE, v) m =
      (false, (CFG_ID_TV_TYPE, v), { m with p := { m.p with tv_type := v &&& 0x03 } }) := rfl

theorem cfg_update_flash_erase_block (k : Consts) (v : Nat) (m : Machine) :
    cfg_update k (CFG_ID_FLASH_ERASE_BLOCK, v) m =
      (false, (CFG_ID_FLASH_ERASE_BLOCK, v), call (Event.flash_erase_block v) m) := rfl

theorem cfg_update_dd_drive_type (k : Consts) (v : Nat) (m : Machine) :
    cfg_update k (CFG_ID_DD_DRIVE_TYPE, v) m =
      (false, (CFG_ID_DD_DRIVE_TYPE, v), call (Event.dd_set_drive_type v) m) := rfl

theorem cfg_update_dd_disk_state (k : Consts) (v : Nat) (m : Machine) :
    cfg_update k (CFG_ID_DD_DISK_STATE, v) m =
      (false, (CFG_ID_DD_DISK_STATE, v), call (Event.dd_set_disk_state v) m) := rfl

/-- The ids `cfg_query` and `cfg_update` know are `0 .. 11`. -/
theorem cfg_id_cases (id : Nat) (h : ¬ 12 ≤ id) :
    id = CFG_ID_BOOTLOADER_SWITCH ∨ id = CFG_ID_ROM_WRITE_ENABLE ∨
    id = CFG_ID_ROM_SHADOW_ENABLE ∨ id = CFG_ID_DD_MODE ∨ id = CFG_ID_ISV_ENABLE ∨
    id = CFG_ID_BOOT_MODE ∨ id = CFG_ID_SAVE_TYPE ∨ id = CFG_ID_CIC_SEED ∨
    id = CFG_ID_TV_TYPE ∨ id = CFG_ID_FLASH_ERASE_BLOCK ∨ id = CFG_ID_DD_DRIVE_TYPE ∨
    id = CFG_ID_DD_DISK_STATE := by
  simp only [CFG_ID_BOOTLOADER_SWITCH, CFG_ID_ROM_WRITE_ENABLE, CFG_ID_ROM_SHADOW_ENABLE,
    CFG_ID_DD_MODE, CFG_ID_ISV_ENABLE, CFG_ID_BOOT_MODE, CFG_ID_SAVE_TYPE, CFG_ID_CIC_SEED,
    CFG_ID_TV_TYPE, CFG_ID_FLASH_ERASE_BLOCK, CFG_ID_DD_DRIVE_TYPE, CFG_ID_DD_DISK_STATE]
  omega

theorem cfg_update_log (k : Consts) (args : Nat × Nat) (m : Machine) :
    scr_extends m (cfg_update k args m).2.2 := by
  obtain ⟨id, v⟩ := args
  by_cases h : 12 ≤ id
  · rw [cfg_update_unknown k id v m h]; exact scr_extends_refl m
  · rcases cfg_id_cases id h with
      rfl | rfl | rfl | rfl | rfl | rfl | rfl | rfl | rfl | rfl | rfl | rfl
    · rw [cfg_update_bootloader_switch]; exact scr_extends_change _ _ m
    · rw [cfg_update_rom_write_enable]; exact scr_extends_change _ _ m
    · rw [cfg_update_rom_shadow_enable]; exact scr_extends_change _ _ m
    · rw [cfg_update_dd_mode]
      show scr_extends m (if _ then _ else _)
      split_ifs
      · exact scr_extends_change _ _ m
      · exact scr_extends_trans (scr_extends_change _ _ m) (scr_extends_change _ _ _)
      · exact scr_extends_trans (scr_extends_change _ _ m) (scr_extends_change _ _ _)
      · exact scr_extends_change _ _ m
    · rw [cfg_update_isv_enable]; exact scr_extends_call _ m rfl
    · rw [cfg_update_boot_mode]
      exact scr_extends_trans (scr_extends_of_log_eq rfl) (scr_extends_change _ _ _)
    · rw [cfg_update_save_type]; exact cfg_set_save_type_log k _ m
    · rw [cfg_update_cic_seed]; exact scr_extends_of_log_eq rfl
    · rw [cfg_update_tv_type]; exact scr_extends_of_log_eq rfl
    · rw [cfg_update_flash_erase_block]; exact scr_extends_call _ m rfl
    · rw [cfg_update_dd_drive_type]; exact scr_extends_call _ m rfl
    · rw [cfg_update_dd_disk_state]; exact scr_extends_call _ m rfl

theorem cfg_update_error (k : Consts) (args : Nat × Nat) (m : Machine)
    (h : (cfg_update k args m).1 = true) : (cfg_update k args m).2.2 = m := by
  obtain ⟨id, v⟩ := args
  by_cases h12 : 12 ≤ id
  · rw [cfg_update_unknown k id v m h12]
  · rcases cfg_id_cases id h12 with
      rfl | rfl | rfl | rfl | rfl | rfl | rfl | rfl | rfl | rfl | rfl | rfl
    · rw [cfg_update_bootloader_switch] at h; exact absurd h (by simp)
    · rw [cfg_update_rom_write_enable] at h; exact absurd h (by simp)
    · rw [cfg_update_rom_shadow_enable] at h; exact absurd h (by simp)
    · rw [cfg_update_dd_mode] at h; exact absurd h (by simp)
    · rw [cfg_update_isv_enable] at h; exact absurd h (by simp)
    · rw [cfg_update_boot_mode] at h; exact absurd h (by simp)
    · rw [cfg_update_save_type] at h; exact absurd h (by simp)
    · rw [cfg_update_cic_seed] at h; exact absurd h (by simp)
    · rw [cfg_update_tv_type] at h; exact absurd h (by simp)
    · rw [cfg_update_flash_erase_block] at h; exact absurd h (by simp)
    · rw [cfg_update_dd_drive_type] at h; exact absurd h (by simp)
    · rw [cfg_update_dd_disk_state] at h; exact absurd h (by simp)

theorem quiet_extends_refl (m : Machine) : quiet_extends m m := ⟨[], by simp, rfl⟩

theorem quiet_extends_call (e : Event) (m : Machine) (h : reg_writes [e] = []) :
    quiet_extends m (call e m) := ⟨[e], rfl, h⟩

theorem quiet_extends_trans {a b c : Machine} (h1 : quiet_extends a b)
    (h2 : quiet_extends b c) : quiet_extends a c := by
  obtain ⟨e1, h1, p1⟩ := h1
  obtain ⟨e2, h2, p2⟩ := h2
  exact ⟨e1 ++ e2, by rw [h2, h1, List.append_assoc], by rw [reg_writes_append, p1, p2]; rfl⟩

theorem quiet_extends_scr {m m2 : Machine} (h : quiet_extends m m2) : scr_extends m m2 := by
  obtain ⟨es, h, p⟩ := h
  exact ⟨es, h, by simp [only_scr_writes, p]⟩

/-! ### `cfg_query`, one property at a time -/

theorem cfg_query_unknown (k : Consts) (w : Collab) (id v : Nat) (m : Machine) (h : 12 ≤ id) :
    cfg_query k w (id, v) m = (true, (id, v), m) := by
  have h0 : ¬ id = 0 := by omega
  have h1 : ¬ id = 1 := by omega
  have h2 : ¬ id = 2 := by omega
  have h3 : ¬ id = 3 := by omega
  have h4 : ¬ id = 4 := by omega
  have h5 : ¬ id = 5 := by omega
  have h6 : ¬ id = 6 := by omega
  have h7 : ¬ id = 7 := by omega
  have h8 : ¬ id = 8 := by omega
  have h9 : ¬ id = 9 := by omega
  have h10 : ¬ id = 10 := by omega
  have h11 : ¬ id = 11 := by omega
  simp [cfg_query, h0, h1, h2, h3, h4, h5, h6, h7, h8, h9, h10, h11]

theorem cfg_query_bootloader_switch (k : Consts) (w : Collab) (v : Nat) (m : Machine) :
    cfg_query k w (CFG_ID_BOOTLOADER_SWITCH, v) m =
      (false, (CFG_ID_BOOTLOADER_SWITCH,
        fpga_reg_get m REG_CFG_SCR &&& k.CFG_SCR_BOOTLOADER_ENABLED), m) := rfl

theorem cfg_query_rom_write_enable (k : Consts) (w : Collab) (v : Nat) (m : Machine) :
    cfg_query k w (CFG_ID_ROM_WRITE_ENABLE, v) m =
      (false, (CFG_ID_ROM_WRITE_ENABLE,
        fpga_reg_get m REG_CFG_SCR &&& k.CFG_SCR_ROM_WRITE_ENABLED), m) := rfl

theorem cfg_query_rom_shadow_enable (k : Consts) (w : Collab) (v : Nat) (m : Machine) :
    cfg_query k w (CFG_ID_ROM_SHADOW_ENABLE, v) m =
      (false, (CFG_ID_ROM_SHADOW_ENABLE,
        fpga_reg_get m REG_CFG_SCR &&& k.CFG_SCR_ROM_SHADOW_ENABLED), m) := rfl

theorem cfg_query_dd_mode (k : Consts) (w : Collab) (v : Nat) (m : Machine) :
    cfg_query k w (CFG_ID_DD_MODE, v) m =
      (false, (CFG_ID_DD_MODE,
        (if fpga_reg_get m REG_CFG_SCR &&& k.CFG_SCR_DD_ENABLED ≠ 0 then
          (if fpga_reg_get m REG_CFG_SCR &&& k.CFG_SCR_DDIPL_ENABLED ≠ 0 then
            DD_MODE_DISABLED ||| DD_MODE_IPL else DD_MODE_DISABLED) ||| DD_MODE_REGS
         else
          (if fpga_reg_get m REG_CFG_SCR &&& k.CFG_SCR_DDIPL_ENABLED ≠ 0 then
            DD_MODE_DISABLED ||| DD_MODE_IPL else DD_MODE_DISABLED))), m) := rfl

theorem cfg_query_isv_enable (k : Consts) (w : Collab) (v : Nat) (m : Machine) :
    cfg_query k w (CFG_ID_ISV_ENABLE, v) m =
      (false, (CFG_ID_ISV_ENABLE, u32 w.isv_get_enabled), call Event.isv_get_enabled m) := rfl

theorem cfg_query_boot_mode (k : Consts) (w : Collab) (v : Nat) (m : Machine) :
    cfg_query k w (CFG_ID_BOOT_MODE, v) m = (false, (CFG_ID_BOOT_MODE, m.p.boot_mode), m) := rfl

theorem cfg_query_save_type (k : Consts) (w : Collab) (v : Nat) (m : Machine) :
    cfg_query k w (CFG_ID_SAVE_TYPE, v) m = (false, (CFG_ID_SAVE_TYPE, m.p.save_type), m) := rfl

theorem cfg_query_cic_seed (k : Consts) (w : Collab) (v : Nat) (m : Machine) :
    cfg_query k w (CFG_ID_CIC_SEED, v) m = (false, (CFG_ID_CIC_SEED, m.p.cic_seed), m) := rfl

theorem cfg_query_tv_type (k : Consts) (w : Collab) (v : Nat) (m : Machine) :
    cfg_query k w (CFG_ID_TV_TYPE, v) m = (false, (CFG_ID_TV_TYPE, m.p.tv_type), m) := rfl

theorem cfg_query_flash_erase_block (k : Consts) (w : Collab) (v : Nat) (m : Machine) :
    cfg_query k w (CFG_ID_FLASH_ERASE_BLOCK, v) m =
      (false, (CFG_ID_FLASH_ERASE_BLOCK, 0xFFFFFFFF), m) := rfl

theorem cfg_query_dd_drive_type (k : Consts) (w : Collab) (v : Nat) (m : Machine) :
    cfg_query k w (CFG_ID_DD_DRIVE_TYPE, v) m =
      (false, (CFG_ID_DD_DRIVE_TYPE, u32 w.dd_get_drive_type),
        call Event.dd_get_drive_type m) := rfl

theorem cfg_query_dd_disk_state (k : Consts) (w : Collab) (v : Nat) (m : Machine) :
    cfg_query k w (CFG_ID_DD_DISK_STATE, v) m =
      (false, (CFG_ID_DD_DISK_STATE, u32 w.dd_get_disk_state),
        call Event.dd_get_disk_state m) := rfl

theorem cfg_query_log (k : Consts) (w : Collab) (args : Nat × Nat) (m : Machine) :
    quiet_extends m (cfg_query k w args m).2.2 := by
  obtain ⟨id, v⟩ := args
  by_cases h : 12 ≤ id
  · rw [cfg_query_unknown k w id v m h]; exact quiet_extends_refl m
  · rcases cfg_id_cases id h with
      rfl | rfl | rfl | rfl | rfl | rfl | rfl | rfl | rfl | rfl | rfl | rfl
    · exact quiet_extends_refl m
    · exact quiet_extends_refl m
    · exact quiet_extends_refl m
    · exact quiet_extends_refl m
    · exact quiet_extends_call _ m rfl
    · exact quiet_extends_refl m
    · exact quiet_extends_refl m
    · exact quiet_extends_refl m
    · exact quiet_extends_refl m
    · exact quiet_extends_refl m
    · exact quiet_extends_call _ m rfl
    · exact quiet_extends_call _ m rfl

theorem cfg_query_error (k : Consts) (w : Collab) (args : Nat × Nat) (m : Machine)
    (h : (cfg_query k w args m).1 = true) : (cfg_query k w args m).2.2 = m := by
  obtain ⟨id, v⟩ := args
  by_cases h12 : 12 ≤ id
  · rw [cfg_query_unknown k w id v m h12]
  · rcases cfg_id_cases id h12 with
      rfl | rfl | rfl | rfl | rfl | rfl | rfl | rfl | rfl | rfl | rfl | rfl
    all_goals exact absurd h Bool.false_ne_true

/-! ### The `switch` of `cfg_process`, one command at a time -/

theorem cfg_process_switch_v (k : Consts) (w : Collab) (args : Nat × Nat) (m : Machine) :
    cfg_process_switch k w 'v'.toNat args m = Outcome.brk (cfg_get_version m, args.2) m := rfl

theorem cfg_process_switch_c (k : Consts) (w : Collab) (args : Nat × Nat) (m : Machine) :
    cfg_process_switch k w 'c'.toNat args m =
      if (cfg_query k w args m).1 then
        Outcome.ret (cfg_set_error k CFG_ERROR_BAD_CONFIG_ID (cfg_query k w args m).2.2)
      else Outcome.brk (cfg_query k w args m).2.1 (cfg_query k w args m).2.2 := rfl

theorem cfg_process_switch_C (k : Consts) (w : Collab) (args : Nat × Nat) (m : Machine) :
    cfg_process_switch k w 'C'.toNat args m =
      if (cfg_update k args m).1 then
        Outcome.ret (cfg_set_error k CFG_ERROR_BAD_CONFIG_ID (cfg_update k args m).2.2)
      else Outcome.brk (cfg_update k args m).2.1 (cfg_update k args m).2.2 := rfl

theorem cfg_process_switch_t (k : Consts) (w : Collab) (args : Nat × Nat) (m : Machine) :
    cfg_process_switch k w 't'.toNat args m =
      Outcome.brk (cfg_get_time w args m).1 (cfg_get_time w args m).2 := rfl

theorem cfg_process_switch_T (k : Consts) (w : Collab) (args : Nat × Nat) (m : Machine) :
    cfg_process_switch k w 'T'.toNat args m = Outcome.brk args (cfg_set_time args m) := rfl

theorem cfg_process_switch_m (k : Consts) (w : Collab) (args : Nat × Nat) (m : Machine) :
    cfg_process_switch k w 'm'.toNat args m =
      if (cfg_translate_address args).1 then
        Outcome.ret (cfg_set_error k CFG_ERROR_BAD_ADDRESS m)
      else if !(w.usb_prepare_read (cfg_translate_address args).2).1 then
        Outcome.ret (call (Event.usb_prepare_read (cfg_translate_address args).2) m)
      else
        Outcome.brk (u32 (w.usb_prepare_read (cfg_translate_address args).2).2.1,
                     u32 (w.usb_prepare_read (cfg_translate_address args).2).2.2)
          (call (Event.usb_prepare_read (cfg_translate_address args).2) m) := rfl

theorem cfg_process_switch_M (k : Consts) (w : Collab) (args : Nat × Nat) (m : Machine) :
    cfg_process_switch k w 'M'.toNat args m =
      if (cfg_translate_address args).1 then
        Outcome.ret (cfg_set_error k CFG_ERROR_BAD_ADDRESS m)
      else if w.usb_enqueue_packet (output_packet k (cfg_translate_address args).2) then
        Outcome.brk (cfg_translate_address args).2
          { call (Event.usb_enqueue_packet (output_packet k (cfg_translate_address args).2))
              (call (Event.usb_create_packet k.PACKET_CMD_USB_OUTPUT) m) with
            p := { m.p with usb_output_ready := false } }
      else
        Outcome.ret
          (call (Event.usb_enqueue_packet (output_packet k (cfg_translate_address args).2))
            (call (Event.usb_create_packet k.PACKET_CMD_USB_OUTPUT) m)) := rfl

theorem cfg_process_switch_u (k : Consts) (w : Collab) (args : Nat × Nat) (m : Machine) :
    cfg_process_switch k w 'u'.toNat args m =
      Outcome.brk (u32 (w.usb_get_read_info args).1, u32 (w.usb_get_read_info args).2)
        (call Event.usb_get_read_info m) := rfl

theorem cfg_process_switch_U (k : Consts) (w : Collab) (args : Nat × Nat) (m : Machine) :
    cfg_process_switch k w 'U'.toNat args m =
      Outcome.brk ((if m.p.usb_output_ready then 1 else 0), args.2) m := rfl

theorem cfg_process_switch_unknown (k : Consts) (w : Collab) (cmd : Nat) (args : Nat × Nat)
    (m : Machine)
    (hv : cmd ≠ 'v'.toNat) (hc : cmd ≠ 'c'.toNat) (hC : cmd ≠ 'C'.toNat)
    (ht : cmd ≠ 't'.toNat) (hT : cmd ≠ 'T'.toNat) (hm : cmd ≠ 'm'.toNat)
    (hM : cmd ≠ 'M'.toNat) (hu : cmd ≠ 'u'.toNat) (hU : cmd ≠ 'U'.toNat) :
    cfg_process_switch k w cmd args m = Outcome.ret (cfg_set_error k CFG_ERROR_UNKNOWN_CMD m) := by
  unfold cfg_process_switch
  rw [if_neg hv, if_neg hc, if_neg hC, if_neg ht, if_neg hT, if_neg hm, if_neg hM, if_neg hu,
    if_neg hU]

/-- How the `switch` of `cfg_process` can end: with `break` after stores to the control
register only; with `return` after no store at all; or with `return` out of
`cfg_set_error`, called on the machine as it was found. -/
theorem cfg_process_switch_log (k : Consts) (w : Collab) (cmd : Nat) (args : Nat × Nat)
    (m : Machine) :
    (∃ a m2, cfg_process_switch k w cmd args m = Outcome.brk a m2 ∧ scr_extends m m2) ∨
    (∃ m2, cfg_process_switch k w cmd args m = Outcome.ret m2 ∧ quiet_extends m m2) ∨
    (∃ e, cfg_process_switch k w cmd args m = Outcome.ret (cfg_set_error k e m)) := by
  by_cases hv : cmd = 'v'.toNat
  · subst hv; exact Or.inl ⟨_, _, rfl, scr_extends_refl m⟩
  by_cases hc : cmd = 'c'.toNat
  · subst hc
    rw [cfg_process_switch_c]
    split_ifs with h
    · rw [cfg_query_error k w args m h]; exact Or.inr (Or.inr ⟨_, rfl⟩)
    · exact Or.inl ⟨_, _, rfl, quiet_extends_scr (cfg_query_log k w args m)⟩
  by_cases hC : cmd = 'C'.toNat
  · subst hC
    rw [cfg_process_switch_C]
    split_ifs with h
    · rw [cfg_update_error k args m h]; exact Or.inr (Or.inr ⟨_, rfl⟩)
    · exact Or.inl ⟨_, _, rfl, cfg_update_log k args m⟩
  by_cases ht : cmd = 't'.toNat
  · subst ht; exact Or.inl ⟨_, _, rfl, scr_extends_call _ m rfl⟩
  by_cases hT : cmd = 'T'.toNat
  · subst hT; exact Or.inl ⟨_, _, rfl, scr_extends_call _ m rfl⟩
  by_cases hm : cmd = 'm'.toNat
  · subst hm
    rw [cfg_process_switch_m]
    split_ifs with h1 h2
    · exact Or.inr (Or.inr ⟨_, rfl⟩)
    · exact Or.inr (Or.inl ⟨_, rfl, quiet_extends_call _ m rfl⟩)
    · exact Or.inl ⟨_, _, rfl, scr_extends_call _ m rfl⟩
  by_cases hM : cmd = 'M'.toNat
  · subst hM
    rw [cfg_process_switch_M]
    split_ifs with h1 h2
    · exact Or.inr (Or.inr ⟨_, rfl⟩)
    · refine Or.inl ⟨_, _, rfl, ?_⟩
      exact scr_extends_trans (scr_extends_trans
        (scr_extends_call (Event.usb_create_packet _) m rfl)
        (scr_extends_call (Event.usb_enqueue_packet _) _ rfl)) (scr_extends_of_log_eq rfl)
    · refine Or.inr (Or.inl ⟨_, rfl, ?_⟩)
      exact quiet_extends_trans (quiet_extends_call (Event.usb_create_packet _) m rfl)
        (quiet_extends_call (Event.usb_enqueue_packet _) _ rfl)
  by_cases hu : cmd = 'u'.toNat
  · subst hu; exact Or.inl ⟨_, _, rfl, scr_extends_call _ m rfl⟩
  by_cases hU : cmd = 'U'.toNat
  · subst hU; exact Or.inl ⟨_, _, rfl, scr_extends_refl m⟩
  rw [cfg_process_switch_unknown k w cmd args m hv hc hC ht hT hm hM hu hU]
  exact Or.inr (Or.inr ⟨_, rfl⟩)

/-! ## The dispatcher: order of the stores and the error paths -/

/-- With no request pending `cfg_process` does nothing. -/
theorem cfg_process_idle (k : Consts) (w : Collab) (m : Machine) (hp : ¬ pending k m) :
    cfg_process k w m = m := by
  unfold pending at hp
  unfold cfg_process
  rw [if_neg hp]

/-- A poll whose command ends the `switch` with `return`. -/
theorem cfg_process_ret (k : Consts) (w : Collab) (m m2 : Machine) (hp : pending k m)
    (h : cfg_process_switch k w (request_cmd m) (request_args m) m = Outcome.ret m2) :
    cfg_process k w m = m2 := by
  unfold request_cmd request_args at h
  unfold pending at hp
  unfold cfg_process
  rw [if_pos hp]
  simp only [h]

/-- A poll whose command ends the `switch` with `break`: the results and the done flag
are stored. -/
theorem cfg_process_brk (k : Consts) (w : Collab) (m m2 : Machine) (a : Nat × Nat)
    (hp : pending k m)
    (h : cfg_process_switch k w (request_cmd m) (request_args m) m = Outcome.brk a m2) :
    cfg_process k w m =
      fpga_reg_set REG_CFG_CMD k.CFG_CMD_DONE
        (fpga_reg_set REG_CFG_DATA_1 a.2 (fpga_reg_set REG_CFG_DATA_0 a.1 m2)) := by
  unfold request_cmd request_args at h
  unfold pending at hp
  unfold cfg_process
  rw [if_pos hp]
  simp only [h]

theorem mailbox_writes_of_scr (es : List Event) (h : only_scr_writes es) (tail : List Event) :
    mailbox_writes (es ++ tail) = mailbox_writes tail := by
  unfold mailbox_writes
  rw [reg_writes_append, List.filter_append]
  have : List.filter
      (fun x : fpga_reg_t × Nat =>
        decide (x.1 = REG_CFG_DATA_0 ∨ x.1 = REG_CFG_DATA_1 ∨ x.1 = REG_CFG_CMD))
      (reg_writes es) = [] := by
    rw [List.filter_eq_nil_iff]
    intro x hx
    rw [h x hx]
    decide
  rw [this, List.nil_append]

/-- C5: in one run of `cfg_process`, on any machine and for any answers of the
collaborators, either no register is stored to at all, or the register stores are: some
stores to the control register, then one store to result 0 (`REG_CFG_DATA_0`), then one
to result 1 (`REG_CFG_DATA_1`), then one to the command register, whose value is the
done flag or the done flag with the error flag.  So the stores to the three mailbox
registers are exactly these last three, in this order, and the store that raises the
done flag is the last store of the run. -/
theorem C5_results_stored_before_done (k : Consts) (w : Collab) (m : Machine) :
    ∃ es, (cfg_process k w m).log = m.log ++ es ∧
      ((reg_writes es = [] ∧ mailbox_writes es = []) ∨
       ∃ pre v0 v1 vc,
         reg_writes es =
           pre ++ [(REG_CFG_DATA_0, v0), (REG_CFG_DATA_1, v1), (REG_CFG_CMD, vc)] ∧
         (∀ x ∈ pre, x.1 = REG_CFG_SCR) ∧
         mailbox_writes es =
           [(REG_CFG_DATA_0, v0), (REG_CFG_DATA_1, v1), (REG_CFG_CMD, vc)] ∧
         (vc = u32 k.CFG_CMD_DONE ∨ vc = u32 (k.CFG_CMD_ERROR ||| k.CFG_CMD_DONE))) := by
  by_cases hp : pending k m
  · rcases cfg_process_switch_log k w (request_cmd m) (request_args m) m with
      ⟨a, m2, h, es, hlog, hscr⟩ | ⟨m2, h, es, hlog, hq⟩ | ⟨e, h⟩
    · rw [cfg_process_brk k w m m2 a hp h]
      refine ⟨es ++ [Event.reg_set REG_CFG_DATA_0 (u32 a.1), Event.reg_set REG_CFG_DATA_1 (u32 a.2),
        Event.reg_set REG_CFG_CMD (u32 k.CFG_CMD_DONE)], ?_, Or.inr ⟨reg_writes es, u32 a.1, u32 a.2, u32 k.CFG_CMD_DONE, ?_, hscr, ?_, Or.inl rfl⟩⟩
      · simp [hlog]
      · rw [reg_writes_append]; rfl
      · rw [mailbox_writes_of_scr es hscr]; rfl
    · rw [cfg_process_ret k w m m2 hp h]
      exact ⟨es, hlog, Or.inl ⟨hq, by unfold mailbox_writes; rw [hq]; rfl⟩⟩
    · rw [cfg_process_ret k w m _ hp h, cfg_set_error_eq]
      exact ⟨_, rfl, Or.inr ⟨[], u32 (u32_of_int e), 0, u32 (k.CFG_CMD_ERROR ||| k.CFG_CMD_DONE),
        rfl, by simp, rfl, Or.inr rfl⟩⟩
  · rw [cfg_process_idle k w m hp]
    exact ⟨[], by simp, Or.inl ⟨rfl, rfl⟩⟩

/-- C7: with a request pending and a command byte that is none of `'v'`, `'c'`, `'C'`,
`'t'`, `'T'`, `'m'`, `'M'`, `'u'`, `'U'`, one run of `cfg_process` stores `0xFFFFFFFF`
(`CFG_ERROR_UNKNOWN_CMD = -1`) to result 0, `0` to result 1 and the done and error flags
to the command register, in this order, and does nothing else: no other register (the
control register in particular) changes, the configuration state is what it was, and no
call into another module is made. -/
theorem C7_unknown_command (k : Consts) (w : Collab) (m : Machine)
    (hp : pending k m)
    (hv : request_cmd m ≠ 'v'.toNat) (hc : request_cmd m ≠ 'c'.toNat)
    (hC : request_cmd m ≠ 'C'.toNat) (ht : request_cmd m ≠ 't'.toNat)
    (hT : request_cmd m ≠ 'T'.toNat) (hm : request_cmd m ≠ 'm'.toNat)
    (hM : request_cmd m ≠ 'M'.toNat) (hu : request_cmd m ≠ 'u'.toNat)
    (hU : request_cmd m ≠ 'U'.toNat) :
    (cfg_process k w m).log = m.log ++
        [Event.reg_set REG_CFG_DATA_0 0xFFFFFFFF,
         Event.reg_set REG_CFG_DATA_1 0,
         Event.reg_set REG_CFG_CMD (u32 (k.CFG_CMD_ERROR ||| k.CFG_CMD_DONE))] ∧
      (cfg_process k w m).regs =
        { m.regs with data_0 := 0xFFFFFFFF, data_1 := 0,
                      cmd := u32 (k.CFG_CMD_ERROR ||| k.CFG_CMD_DONE) } ∧
      (cfg_process k w m).regs.scr = m.regs.scr ∧
      (cfg_process k w m).p = m.p ∧
      collab_calls (cfg_process k w m).log = collab_calls m.log := by
  have h : cfg_process k w m = cfg_set_error k CFG_ERROR_UNKNOWN_CMD m :=
    cfg_process_ret k w m _ hp
      (cfg_process_switch_unknown k w _ _ m hv hc hC ht hT hm hM hu hU)
  rw [h, cfg_set_error_eq]
  refine ⟨rfl, rfl, rfl, rfl, ?_⟩
  rw [collab_calls_append]
  simp [collab_calls]

/-- Witness of C7: the command byte `'x'` posted right after initialisation. -/
theorem C7_unknown_command_witness :
    (cfg_process sample_consts busy_collab (posted 'x'.toNat 0 0)).regs.data_0 = 0xFFFFFFFF ∧
      (cfg_process sample_consts busy_collab (posted 'x'.toNat 0 0)).p =
        (posted 'x'.toNat 0 0).p :=
  have h := C7_unknown_command sample_consts busy_collab (posted 'x'.toNat 0 0)
    (by decide) (by decide) (by decide) (by decide) (by decide) (by decide) (by decide)
    (by decide) (by decide) (by decide)
  ⟨by rw [h.2.1], h.2.2.2.1⟩

/-- C8: with a request pending, command `'m'` or `'M'`, and arguments the address
translator rejects, one run of `cfg_process` stores `1` (`CFG_ERROR_BAD_ADDRESS`) to
result 0, `0` to result 1 and the done and error flags to the command register, in this
order, and does nothing else: no call into another module is made (neither
`usb_prepare_read` nor `usb_enqueue_packet`), and the configuration state
(`usb_output_ready` included) and the control register are what they were. -/
theorem C8_bad_address (k : Consts) (w : Collab) (m : Machine)
    (hp : pending k m)
    (hcmd : request_cmd m = 'm'.toNat ∨ request_cmd m = 'M'.toNat)
    (hrej : (cfg_translate_address (request_args m)).1 = true) :
    (cfg_process k w m).log = m.log ++
        [Event.reg_set REG_CFG_DATA_0 1,
         Event.reg_set REG_CFG_DATA_1 0,
         Event.reg_set REG_CFG_CMD (u32 (k.CFG_CMD_ERROR ||| k.CFG_CMD_DONE))] ∧
      (cfg_process k w m).regs =
        { m.regs with data_0 := 1, data_1 := 0,
                      cmd := u32 (k.CFG_CMD_ERROR ||| k.CFG_CMD_DONE) } ∧
      (cfg_process k w m).regs.scr = m.regs.scr ∧
      (cfg_process k w m).p = m.p ∧
      collab_calls (cfg_process k w m).log = collab_calls m.log := by
  have h : cfg_process k w m = cfg_set_error k CFG_ERROR_BAD_ADDRESS m := by
    apply cfg_process_ret k w m _ hp
    rcases hcmd with hc | hc
    · rw [hc, cfg_process_switch_m, if_pos hrej]
    · rw [hc, cfg_process_switch_M, if_pos hrej]
  rw [h, cfg_set_error_eq]
  refine ⟨rfl, rfl, rfl, rfl, ?_⟩
  rw [collab_calls_append]
  simp [collab_calls]

/-- Witness of C8: `'M'` posted for `0x13FFFF00`, length `0x200`, which runs over the end
of window A. -/
theorem C8_bad_address_witness :
    (cfg_process sample_consts free_collab (posted 'M'.toNat 0x13FFFF00 0x200)).regs.data_0 = 1 ∧
      (cfg_process sample_consts free_collab (posted 'M'.toNat 0x13FFFF00 0x200)).p =
        (posted 'M'.toNat 0x13FFFF00 0x200).p :=
  have h := C8_bad_address sample_consts free_collab (posted 'M'.toNat 0x13FFFF00 0x200)
    (by decide) (Or.inr (by decide)) (by decide)
  ⟨by rw [h.2.1], h.2.2.2.1⟩

/-- C6: for a property id that is none of the twelve known ones (`id >= 12`) and any
value, `cfg_query` and `cfg_update` both return `true` (error) and leave the machine
(configuration state, control register, every other register, the log of calls) and both
`args` as they were; and a pending poll with command `'c'` or `'C'` whose first argument
is such an id stores `2` (`CFG_ERROR_BAD_CONFIG_ID`) to result 0, `0` to result 1 and the
done and error flags to the command register, in this order, and changes nothing else. -/
theorem C6_unknown_config_id (k : Consts) (w : Collab) (m : Machine) (id v : Nat)
    (hid : 12 ≤ id) :
    cfg_query k w (id, v) m = (true, (id, v), m) ∧
      cfg_update k (id, v) m = (true, (id, v), m) ∧
      (pending k m → (request_cmd m = 'c'.toNat ∨ request_cmd m = 'C'.toNat) →
        request_args m = (id, v) →
        (cfg_process k w m).log = m.log ++
            [Event.reg_set REG_CFG_DATA_0 2,
             Event.reg_set REG_CFG_DATA_1 0,
             Event.reg_set REG_CFG_CMD (u32 (k.CFG_CMD_ERROR ||| k.CFG_CMD_DONE))] ∧
          (cfg_process k w m).regs =
            { m.regs with data_0 := 2, data_1 := 0,
                          cmd := u32 (k.CFG_CMD_ERROR ||| k.CFG_CMD_DONE) } ∧
          (cfg_process k w m).p = m.p) := by
  refine ⟨cfg_query_unknown k w id v m hid, cfg_update_unknown k id v m hid, ?_⟩
  intro hp hcmd hargs
  have h : cfg_process k w m = cfg_set_error k CFG_ERROR_BAD_CONFIG_ID m := by
    apply cfg_process_ret k w m _ hp
    rw [hargs]
    rcases hcmd with hc | hc
    · rw [hc, cfg_process_switch_c, cfg_query_unknown k w id v m hid]; rfl
    · rw [hc, cfg_process_switch_C, cfg_update_unknown k id v m hid]; rfl
  rw [h, cfg_set_error_eq]
  exact ⟨rfl, rfl, rfl⟩

/-- Witness of C6: the id `12`, queried by a poll right after initialisation. -/
theorem C6_unknown_config_id_witness :
    cfg_update sample_consts (12, 7) (posted 'c'.toNat 12 7) =
        (true, (12, 7), posted 'c'.toNat 12 7) ∧
      (cfg_process sample_consts busy_collab (posted 'c'.toNat 12 7)).regs.data_0 = 2 :=
  have h := C6_unknown_config_id sample_consts busy_collab (posted 'c'.toNat 12 7) 12 7
    (by decide)
  ⟨h.2.1, by rw [(h.2.2 (by decide) (Or.inl (by decide)) (by decide)).2.1]⟩

/-! ## Bits of 32-bit words -/

theorem testBit_u32 (x i : Nat) : (u32 x).testBit i = (decide (i < 32) && x.testBit i) :=
  Nat.testBit_mod_two_pow x 32 i

theorem testBit_not32 (m i : Nat) :
    (not32 m).testBit i = (decide (i < 32) && !m.testBit i) := by
  have h1 : (4294967295 : Nat) = 2 ^ 32 - 1 := by norm_num
  have h2 : (4294967296 : Nat) = 2 ^ 32 := by norm_num
  unfold not32
  rw [Nat.testBit_xor, h1, h2, Nat.testBit_two_pow_sub_one, Nat.testBit_mod_two_pow]
  cases decide (i < 32) <;> cases m.testBit i <;> rfl

/-- Two masks without a common bit, bit by bit. -/
theorem testBit_disjoint {a b : Nat} (h : a &&& b = 0) (i : Nat) :
    (a.testBit i && b.testBit i) = false := by
  rw [← Nat.testBit_and, h, Nat.zero_testBit]

/-- A mask inside another one, bit by bit. -/
theorem testBit_submask {a b : Nat} (h : a &&& b = b) (i : Nat) :
    (b.testBit i && !a.testBit i) = false := by
  have := congrArg (fun n => Nat.testBit n i) h
  simp only [Nat.testBit_and] at this
  revert this
  cases a.testBit i <;> cases b.testBit i <;> decide

/-- A 32-bit value has no bit from position 32 on. -/
theorem testBit_lt32 {a : Nat} (h : a < 4294967296) (i : Nat) :
    (a.testBit i && !decide (i < 32)) = false := by
  by_cases hi : i < 32
  · simp [hi]
  · have h32 : (4294967296 : Nat) = 2 ^ 32 := by norm_num
    have : a < 2 ^ i :=
      lt_of_lt_of_le h (by rw [h32]; exact Nat.pow_le_pow_right (by norm_num) (by omega))
    simp [Nat.testBit_lt_two_pow this]

theorem u32_lt (x : Nat) : u32 x < 4294967296 := Nat.mod_lt _ (by norm_num)

theorem u32_of_lt {x : Nat} (h : x < 4294967296) : u32 x = x := Nat.mod_eq_of_lt h

theorem u32_u32 (x : Nat) : u32 (u32 x) = u32 x := u32_of_lt (u32_lt x)

/-- Setting the bits of `n` leaves the bits of a mask `msk` that shares no bit with `n`. -/
theorem set_other (x n msk : Nat) (hd : n &&& msk = 0) :
    u32 (u32 x ||| n) &&& msk = u32 x &&& msk := by
  apply Nat.eq_of_testBit_eq
  intro i
  have a1 := testBit_disjoint hd i
  simp only [Nat.testBit_and, Nat.testBit_or, testBit_u32]
  generalize decide (i < 32) = c at *
  generalize x.testBit i = x0 at *
  generalize n.testBit i = x1 at *
  generalize msk.testBit i = x2 at *
  revert a1
  revert c x0 x1 x2
  decide

/-- Clearing the bits of `n` leaves the bits of a mask `msk` that shares no bit with `n`. -/
theorem clear_other (x n msk : Nat) (hd : n &&& msk = 0) :
    u32 (u32 x &&& not32 n) &&& msk = u32 x &&& msk := by
  apply Nat.eq_of_testBit_eq
  intro i
  have a1 := testBit_disjoint hd i
  simp only [Nat.testBit_and, Nat.testBit_or, testBit_u32, testBit_not32]
  generalize decide (i < 32) = c at *
  generalize x.testBit i = x0 at *
  generalize n.testBit i = x1 at *
  generalize msk.testBit i = x2 at *
  revert a1
  revert c x0 x1 x2
  decide

/-- Clearing the bits of `r` and then setting those of a part `n` of `r` leaves exactly
`n` among the bits of `r`. -/
theorem clear_then_set (x r n : Nat) (hs : r &&& n = n) (hn : n < 4294967296) :
    u32 (u32 (u32 (u32 x &&& not32 r)) ||| n) &&& r = n := by
  apply Nat.eq_of_testBit_eq
  intro i
  have a1 := testBit_submask hs i
  have a2 := testBit_lt32 hn i
  simp only [Nat.testBit_and, Nat.testBit_or, testBit_u32, testBit_not32]
  generalize decide (i < 32) = c at *
  generalize x.testBit i = x0 at *
  generalize n.testBit i = x1 at *
  generalize r.testBit i = x2 at *
  revert a1 a2
  revert c x0 x1 x2
  decide

/-- Clearing the bits of `r` leaves none of them. -/
theorem clear_self (x r : Nat) : u32 (u32 x &&& not32 r) &&& r = 0 := by
  apply Nat.eq_of_testBit_eq
  intro i
  simp only [Nat.testBit_and, Nat.testBit_or, testBit_u32, testBit_not32, Nat.zero_testBit]
  generalize decide (i < 32) = c at *
  generalize x.testBit i = x0 at *
  generalize r.testBit i = x2 at *
  revert c x0 x2
  decide

/-- A union of two masks shares no bit with `msk` when neither does. -/
theorem or_disjoint {a b msk : Nat} (ha : a &&& msk = 0) (hb : b &&& msk = 0) :
    (a ||| b) &&& msk = 0 := by
  apply Nat.eq_of_testBit_eq
  intro i
  have a1 := testBit_disjoint ha i
  have a2 := testBit_disjoint hb i
  simp only [Nat.testBit_and, Nat.testBit_or, Nat.zero_testBit]
  generalize a.testBit i = x0 at *
  generalize b.testBit i = x1 at *
  generalize msk.testBit i = x2 at *
  revert a1 a2
  revert x0 x1 x2
  decide

/-- A mask shares no bit with a union when it shares none with either part. -/
theorem disjoint_or {n a b : Nat} (ha : n &&& a = 0) (hb : n &&& b = 0) :
    n &&& (a ||| b) = 0 := by
  apply Nat.eq_of_testBit_eq
  intro i
  have a1 := testBit_disjoint ha i
  have a2 := testBit_disjoint hb i
  simp only [Nat.testBit_and, Nat.testBit_or, Nat.zero_testBit]
  generalize a.testBit i = x0 at *
  generalize b.testBit i = x1 at *
  generalize n.testBit i = x2 at *
  revert a1 a2
  revert x0 x1 x2
  decide

/-! ## The control register under `cfg_change_scr_bits` and `cfg_set_save_type` -/

theorem cfg_change_scr_bits_scr (mask : Nat) (value : Bool) (m : Machine) :
    (cfg_change_scr_bits mask value m).regs.scr =
      if value then u32 (u32 m.regs.scr ||| mask) else u32 (u32 m.regs.scr &&& not32 mask) := by
  cases value <;> rfl

/-- The value `cfg_set_save_type` leaves in the control register. -/
theorem cfg_set_save_type_scr (k : Consts) (v : Nat) (m : Machine) :
    (cfg_set_save_type k v m).regs.scr =
      if v = SAVE_TYPE_NONE then u32 (u32 m.regs.scr &&& not32 (save_reset_mask k))
      else if v = SAVE_TYPE_EEPROM_4K then
        u32 (u32 (u32 (u32 m.regs.scr &&& not32 (save_reset_mask k))) |||
          k.CFG_SCR_EEPROM_ENABLED)
      else if v = SAVE_TYPE_EEPROM_16K then
        u32 (u32 (u32 (u32 m.regs.scr &&& not32 (save_reset_mask k))) |||
          (k.CFG_SCR_EEPROM_16K ||| k.CFG_SCR_EEPROM_ENABLED))
      else if v = SAVE_TYPE_SRAM then
        u32 (u32 (u32 (u32 m.regs.scr &&& not32 (save_reset_mask k))) |||
          k.CFG_SCR_SRAM_ENABLED)
      else if v = SAVE_TYPE_FLASHRAM then
        u32 (u32 (u32 (u32 m.regs.scr &&& not32 (save_reset_mask k))) |||
          k.CFG_SCR_FLASHRAM_ENABLED)
      else if v = SAVE_TYPE_SRAM_BANKED then
        u32 (u32 (u32 (u32 m.regs.scr &&& not32 (save_reset_mask k))) |||
          (k.CFG_SCR_SRAM_BANKED ||| k.CFG_SCR_SRAM_ENABLED))
      else u32 (u32 m.regs.scr &&& not32 (save_reset_mask k)) := by
  unfold cfg_set_save_type
  simp only []
  split_ifs <;> rfl

/-- The configuration state `cfg_set_save_type` leaves: only `save_type` is assigned, and
a value outside the enumeration is stored as `SAVE_TYPE_NONE`. -/
theorem cfg_set_save_type_p (k : Consts) (v : Nat) (m : Machine) :
    (cfg_set_save_type k v m).p = { m.p with save_type := if v ≤ 5 then v else 0 } := by
  unfold cfg_set_save_type
  simp only []
  split_ifs with h0 h1 h2 h3 h4 h5 h6 h7
  all_goals first
    | rfl
    | (simp only [SAVE_TYPE_NONE, SAVE_TYPE_EEPROM_4K, SAVE_TYPE_EEPROM_16K, SAVE_TYPE_SRAM,
        SAVE_TYPE_FLASHRAM, SAVE_TYPE_SRAM_BANKED] at *; omega)

/-- A single-bit flag is set in `x` exactly when that bit of `x` is. -/
theorem and_two_pow_ne_zero (x j : Nat) : decide (x &&& 2 ^ j ≠ 0) = x.testBit j := by
  rw [Nat.and_two_pow]
  cases x.testBit j
  · simp
  · simp [Nat.pos_iff_ne_zero.mp (Nat.two_pow_pos j)]

theorem cfg_set_error_scr (k : Consts) (e : Int) (m : Machine) :
    (cfg_set_error k e m).regs.scr = m.regs.scr := by
  rw [cfg_set_error_eq]

theorem cfg_set_error_p (k : Consts) (e : Int) (m : Machine) :
    (cfg_set_error k e m).p = m.p := by
  rw [cfg_set_error_eq]

theorem poll_effect_same (k : Consts) (args : Nat × Nat) (m m2 : Machine)
    (h1 : m2.regs.scr = m.regs.scr) (h2 : m2.p = m.p) : poll_effect k args m m2 :=
  Or.inl ⟨h1, Or.inl h2⟩

/-- The machine the `switch` of `cfg_process` ends on, whichever way it ends. -/
theorem cfg_process_switch_effect (k : Consts) (w : Collab) (cmd : Nat) (args : Nat × Nat)
    (m : Machine) :
    ∃ m2, (cfg_process_switch k w cmd args m = Outcome.ret m2 ∨
        ∃ a, cfg_process_switch k w cmd args m = Outcome.brk a m2) ∧
      poll_effect k args m m2 := by
  by_cases hv : cmd = 'v'.toNat
  · subst hv; exact ⟨m, Or.inr ⟨_, rfl⟩, poll_effect_same k args m m rfl rfl⟩
  by_cases hc : cmd = 'c'.toNat
  · subst hc
    rw [cfg_process_switch_c]
    split_ifs with h
    · rw [cfg_query_error k w args m h]
      exact ⟨_, Or.inl rfl, poll_effect_same k args m _ (cfg_set_error_scr k _ m)
        (cfg_set_error_p k _ m)⟩
    · refine ⟨_, Or.inr ⟨_, rfl⟩, ?_⟩
      obtain ⟨id, v⟩ := args
      by_cases h12 : 12 ≤ id
      · rw [cfg_query_unknown k w id v m h12]; exact poll_effect_same k _ m m rfl rfl
      · rcases cfg_id_cases id h12 with
          rfl | rfl | rfl | rfl | rfl | rfl | rfl | rfl | rfl | rfl | rfl | rfl
        all_goals exact poll_effect_same k _ m _ rfl rfl
  by_cases hC : cmd = 'C'.toNat
  · subst hC
    rw [cfg_process_switch_C]
    split_ifs with h
    · rw [cfg_update_error k args m h]
      exact ⟨_, Or.inl rfl, poll_effect_same k args m _ (cfg_set_error_scr k _ m)
        (cfg_set_error_p k _ m)⟩
    · exact ⟨_, Or.inr ⟨_, rfl⟩, Or.inr ⟨rfl, rfl⟩⟩
  by_cases ht : cmd = 't'.toNat
  · subst ht; exact ⟨_, Or.inr ⟨_, rfl⟩, poll_effect_same k args m _ rfl rfl⟩
  by_cases hT : cmd = 'T'.toNat
  · subst hT; exact ⟨_, Or.inr ⟨_, rfl⟩, poll_effect_same k args m _ rfl rfl⟩
  by_cases hm : cmd = 'm'.toNat
  · subst hm
    rw [cfg_process_switch_m]
    split_ifs with h1 h2
    · exact ⟨_, Or.inl rfl, poll_effect_same k args m _ (cfg_set_error_scr k _ m)
        (cfg_set_error_p k _ m)⟩
    · exact ⟨_, Or.inl rfl, poll_effect_same k args m _ rfl rfl⟩
    · exact ⟨_, Or.inr ⟨_, rfl⟩, poll_effect_same k args m _ rfl rfl⟩
  by_cases hM : cmd = 'M'.toNat
  · subst hM
    rw [cfg_process_switch_M]
    split_ifs with h1 h2
    · exact ⟨_, Or.inl rfl, poll_effect_same k args m _ (cfg_set_error_scr k _ m)
        (cfg_set_error_p k _ m)⟩
    · exact ⟨_, Or.inr ⟨_, rfl⟩, Or.inl ⟨rfl, Or.inr rfl⟩⟩
    · exact ⟨_, Or.inl rfl, poll_effect_same k args m _ rfl rfl⟩
  by_cases hu : cmd = 'u'.toNat
  · subst hu; exact ⟨_, Or.inr ⟨_, rfl⟩, poll_effect_same k args m _ rfl rfl⟩
  by_cases hU : cmd = 'U'.toNat
  · subst hU; exact ⟨_, Or.inr ⟨_, rfl⟩, poll_effect_same k args m _ rfl rfl⟩
  rw [cfg_process_switch_unknown k w cmd args m hv hc hC ht hT hm hM hu hU]
  exact ⟨_, Or.inl rfl, poll_effect_same k args m _ (cfg_set_error_scr k _ m)
    (cfg_set_error_p k _ m)⟩

/-- One poll leaves the control register and the configuration state as they were, or
clears `usb_output_ready`, or does to them what `cfg_update` does on the posted
arguments. -/
theorem cfg_process_effect (k : Consts) (w : Collab) (m : Machine) :
    poll_effect k (request_args m) m (cfg_process k w m) := by
  by_cases hp : pending k m
  · obtain ⟨m2, hout, heff⟩ :=
      cfg_process_switch_effect k w (request_cmd m) (request_args m) m
    rcases hout with h | ⟨a, h⟩
    · rw [cfg_process_ret k w m m2 hp h]; exact heff
    · rw [cfg_process_brk k w m m2 a hp h]; exact heff
  · rw [cfg_process_idle k w m hp]
    exact poll_effect_same k _ m m rfl rfl

/-! ## The save flags follow the stored save type -/

theorem or_lt32 {a b : Nat} (ha : a < 4294967296) (hb : b < 4294967296) :
    a ||| b < 4294967296 := by
  have h32 : (4294967296 : Nat) = 2 ^ 32 := by norm_num
  rw [h32] at ha hb ⊢
  exact Nat.or_lt_two_pow ha hb

/-- Reading a 32-bit mask off a register cell, truncated or not. -/
theorem and_u32 (x msk : Nat) (h : msk < 4294967296) : u32 x &&& msk = x &&& msk := by
  apply Nat.eq_of_testBit_eq
  intro i
  have a1 := testBit_lt32 h i
  simp only [Nat.testBit_and, testBit_u32]
  generalize decide (i < 32) = c at *
  generalize x.testBit i = x0 at *
  generalize msk.testBit i = x1 at *
  revert a1
  revert c x0 x1
  decide

/-- Each combination of save flags `cfg_set_save_type` sets lies inside
`save_reset_mask`. -/
theorem save_reset_mask_parts (k : Consts) :
    save_reset_mask k &&& k.CFG_SCR_EEPROM_ENABLED = k.CFG_SCR_EEPROM_ENABLED ∧
    save_reset_mask k &&& (k.CFG_SCR_EEPROM_16K ||| k.CFG_SCR_EEPROM_ENABLED) =
      k.CFG_SCR_EEPROM_16K ||| k.CFG_SCR_EEPROM_ENABLED ∧
    save_reset_mask k &&& k.CFG_SCR_SRAM_ENABLED = k.CFG_SCR_SRAM_ENABLED ∧
    save_reset_mask k &&& k.CFG_SCR_FLASHRAM_ENABLED = k.CFG_SCR_FLASHRAM_ENABLED ∧
    save_reset_mask k &&& (k.CFG_SCR_SRAM_BANKED ||| k.CFG_SCR_SRAM_ENABLED) =
      k.CFG_SCR_SRAM_BANKED ||| k.CFG_SCR_SRAM_ENABLED := by
  unfold save_reset_mask
  refine ⟨?_, ?_, ?_, ?_, ?_⟩
  all_goals
    apply Nat.eq_of_testBit_eq
    intro i
    simp only [Nat.testBit_and, Nat.testBit_or]
    generalize k.CFG_SCR_EEPROM_16K.testBit i = x0
    generalize k.CFG_SCR_EEPROM_ENABLED.testBit i = x1
    generalize k.CFG_SCR_FLASHRAM_ENABLED.testBit i = x2
    generalize k.CFG_SCR_SRAM_BANKED.testBit i = x3
    generalize k.CFG_SCR_SRAM_ENABLED.testBit i = x4
    revert x0 x1 x2 x3 x4
    decide

/-- Under `scr_masks_disjoint` the save flags are 32-bit values, and none of the six
other flags shares a bit with `save_reset_mask`. -/
theorem scr_masks_disjoint_save (k : Consts) (hk : scr_masks_disjoint k) :
    save_reset_mask k < 4294967296 ∧
    (k.CFG_SCR_EEPROM_16K < 4294967296 ∧ k.CFG_SCR_EEPROM_ENABLED < 4294967296 ∧
      k.CFG_SCR_FLASHRAM_ENABLED < 4294967296 ∧ k.CFG_SCR_SRAM_BANKED < 4294967296 ∧
      k.CFG_SCR_SRAM_ENABLED < 4294967296) ∧
    k.CFG_SCR_BOOTLOADER_ENABLED &&& save_reset_mask k = 0 ∧
    k.CFG_SCR_BOOTLOADER_SKIP &&& save_reset_mask k = 0 ∧
    k.CFG_SCR_ROM_WRITE_ENABLED &&& save_reset_mask k = 0 ∧
    k.CFG_SCR_ROM_SHADOW_ENABLED &&& save_reset_mask k = 0 ∧
    k.CFG_SCR_DD_ENABLED &&& save_reset_mask k = 0 ∧
    k.CFG_SCR_DDIPL_ENABLED &&& save_reset_mask k = 0 := by
  obtain ⟨hlt, hd⟩ := hk
  simp only [scr_masks, List.pairwise_cons, List.mem_cons, List.mem_singleton,
    forall_eq_or_imp, forall_eq, List.not_mem_nil, List.Pairwise.nil, and_true,
    IsEmpty.forall_iff, implies_true] at hlt hd
  obtain ⟨_, _, _, _, _, _, lee, l16, lfr, lsb, lse⟩ := hlt
  obtain ⟨⟨_, _, _, _, _, b1, b2, b3, b4, b5⟩, ⟨_, _, _, _, s1, s2, s3, s4, s5⟩,
    ⟨_, _, _, w1, w2, w3, w4, w5⟩, ⟨_, _, r1, r2, r3, r4, r5⟩, ⟨_, d1, d2, d3, d4, d5⟩,
    ⟨i1, i2, i3, i4, i5⟩, _⟩ := hd
  unfold save_reset_mask
  exact ⟨or_lt32 (or_lt32 (or_lt32 (or_lt32 l16 lee) lfr) lsb) lse,
    ⟨l16, lee, lfr, lsb, lse⟩,
    disjoint_or (disjoint_or (disjoint_or (disjoint_or b2 b1) b3) b4) b5,
    disjoint_or (disjoint_or (disjoint_or (disjoint_or s2 s1) s3) s4) s5,
    disjoint_or (disjoint_or (disjoint_or (disjoint_or w2 w1) w3) w4) w5,
    disjoint_or (disjoint_or (disjoint_or (disjoint_or r2 r1) r3) r4) r5,
    disjoint_or (disjoint_or (disjoint_or (disjoint_or d2 d1) d3) d4) d5,
    disjoint_or (disjoint_or (disjoint_or (disjoint_or i2 i1) i3) i4) i5⟩

/-- Consistency only looks at the control register and the stored save type. -/
theorem save_type_consistent_of_eq (k : Consts) (m m2 : Machine)
    (h1 : m2.regs.scr = m.regs.scr) (h2 : m2.p.save_type = m.p.save_type)
    (h : save_type_consistent k m) : save_type_consistent k m2 := by
  unfold save_type_consistent at h ⊢
  rw [h1, h2]; exact h

/-- Changing flags that share no bit with the save flags keeps consistency. -/
theorem save_type_consistent_change (k : Consts) (hr : save_reset_mask k < 4294967296)
    (n : Nat) (hn : n &&& save_reset_mask k = 0) (value : Bool) (m : Machine)
    (h : save_type_consistent k m) :
    save_type_consistent k (cfg_change_scr_bits n value m) := by
  unfold save_type_consistent at h ⊢
  rw [cfg_change_scr_bits_p, cfg_change_scr_bits_scr]
  refine ⟨h.1, ?_⟩
  cases value
  · rw [if_neg (by decide), clear_other _ _ _ hn, and_u32 _ _ hr]; exact h.2
  · rw [if_pos rfl, set_other _ _ _ hn, and_u32 _ _ hr]; exact h.2

/-- After `cfg_set_save_type` the save flags are those of the stored save type, whatever
was there before. -/
theorem save_type_consistent_set (k : Consts) (hk : scr_masks_disjoint k) (v : Nat)
    (m : Machine) : save_type_consistent k (cfg_set_save_type k v m) := by
  obtain ⟨_, ⟨l16, lee, lfr, lsb, lse⟩, _⟩ := scr_masks_disjoint_save k hk
  obtain ⟨pee, p16, pse, pfr, psb⟩ := save_reset_mask_parts k
  unfold save_type_consistent
  rw [cfg_set_save_type_p, cfg_set_save_type_scr]
  simp only [SAVE_TYPE_NONE, SAVE_TYPE_EEPROM_4K, SAVE_TYPE_EEPROM_16K, SAVE_TYPE_SRAM,
    SAVE_TYPE_FLASHRAM, SAVE_TYPE_SRAM_BANKED, spec_save_type_bits]
  by_cases hv : 5 < v
  · rw [if_neg (by omega), if_neg (by omega), if_neg (by omega), if_neg (by omega),
      if_neg (by omega), if_neg (by omega), if_neg (by omega)]
    exact ⟨by decide, clear_self _ _⟩
  · rw [if_pos (by omega)]
    refine ⟨by omega, ?_⟩
    have hv6 : v = 0 ∨ v = 1 ∨ v = 2 ∨ v = 3 ∨ v = 4 ∨ v = 5 := by omega
    rcases hv6 with rfl | rfl | rfl | rfl | rfl | rfl
    · exact clear_self _ _
    · exact clear_then_set _ _ _ pee lee
    · simp only [if_true, if_false, OfNat.ofNat_ne_zero, OfNat.ofNat_ne_one, Nat.reduceEqDiff]
      rw [Nat.lor_comm k.CFG_SCR_EEPROM_ENABLED]
      exact clear_then_set _ _ _ p16 (or_lt32 l16 lee)
    · exact clear_then_set _ _ _ pse lse
    · exact clear_then_set _ _ _ pfr lfr
    · simp only [if_true, if_false, OfNat.ofNat_ne_zero, OfNat.ofNat_ne_one, Nat.reduceEqDiff]
      rw [Nat.lor_comm k.CFG_SCR_SRAM_ENABLED]
      exact clear_then_set _ _ _ psb (or_lt32 lsb lse)

/-- The function `cfg_update` keeps the save flags consistent with the stored save type,
whichever property it is asked to change. -/
theorem save_type_consistent_update (k : Consts) (hk : scr_masks_disjoint k)
    (args : Nat × Nat) (m : Machine) (h : save_type_consistent k m) :
    save_type_consistent k (cfg_update k args m).2.2 := by
  obtain ⟨hr, _, dbe, dskip, drw, drs, ddd, dipl⟩ := scr_masks_disjoint_save k hk
  obtain ⟨id, v⟩ := args
  by_cases h12 : 12 ≤ id
  · rw [cfg_update_unknown k id v m h12]; exact h
  · rcases cfg_id_cases id h12 with
      rfl | rfl | rfl | rfl | rfl | rfl | rfl | rfl | rfl | rfl | rfl | rfl
    · rw [cfg_update_bootloader_switch]
      exact save_type_consistent_change k hr _ dbe _ m h
    · rw [cfg_update_rom_write_enable]
      exact save_type_consistent_change k hr _ drw _ m h
    · rw [cfg_update_rom_shadow_enable]
      exact save_type_consistent_change k hr _ drs _ m h
    · rw [cfg_update_dd_mode]
      show save_type_consistent k (if _ then _ else _)
      split_ifs
      · exact save_type_consistent_change k hr _ (or_disjoint ddd dipl) _ m h
      · exact save_type_consistent_change k hr _ dipl _ _
          (save_type_consistent_change k hr _ ddd _ m h)
      · exact save_type_consistent_change k hr _ dipl _ _
          (save_type_consistent_change k hr _ ddd _ m h)
      · exact save_type_consistent_change k hr _ (or_disjoint ddd dipl) _ m h
    · rw [cfg_update_isv_enable]
      exact save_type_consistent_of_eq k m _ rfl rfl h
    · rw [cfg_update_boot_mode]
      exact save_type_consistent_change k hr _ dskip _ _
        (save_type_consistent_of_eq k m _ rfl rfl h)
    · rw [cfg_update_save_type]
      exact save_type_consistent_set k hk v m
    · rw [cfg_update_cic_seed]
      exact save_type_consistent_of_eq k m _ rfl rfl h
    · rw [cfg_update_tv_type]
      exact save_type_consistent_of_eq k m _ rfl rfl h
    · rw [cfg_update_flash_erase_block]
      exact save_type_consistent_of_eq k m _ rfl rfl h
    · rw [cfg_update_dd_drive_type]
      exact save_type_consistent_of_eq k m _ rfl rfl h
    · rw [cfg_update_dd_disk_state]
      exact save_type_consistent_of_eq k m _ rfl rfl h

/-- Every step of the system keeps the save flags consistent with the stored save
type. -/
theorem save_type_consistent_step (k : Consts) (hk : scr_masks_disjoint k) (m m2 : Machine)
    (hs : Step k m m2) (h : save_type_consistent k m) : save_type_consistent k m2 := by
  cases hs with
  | poll w =>
    rcases cfg_process_effect k w m with ⟨h1, h2 | h2⟩ | ⟨h1, h2⟩
    · exact save_type_consistent_of_eq k m _ h1 (by rw [h2]) h
    · exact save_type_consistent_of_eq k m _ h1 (by rw [h2]) h
    · exact save_type_consistent_of_eq k _ _ h1 (by rw [h2])
        (save_type_consistent_update k hk (request_args m) m h)
  | usb_done => exact save_type_consistent_of_eq k m _ rfl rfl h
  | host status cmd data_0 data_1 => exact save_type_consistent_of_eq k m _ rfl rfl h

/-- C10: let the flag masks of the control register be 32-bit values no two of which
share a bit.  In every machine reachable from `cfg_init` by polls of `cfg_process` (with
any answers of the collaborators), completion callbacks and host writes to the status,
command and data registers, the stored `save_type` is one of `0 .. 5`, and the save bits
of the control register are exactly the bits the Save-Type Bit Mapper of the
specification assigns to the stored `save_type`. -/
theorem C10_save_type_invariant (k : Consts) (hk : scr_masks_disjoint k) (m : Machine)
    (hr : Reachable k m) :
    m.p.save_type ≤ 5 ∧
      m.regs.scr &&& save_reset_mask k = spec_save_type_bits k m.p.save_type := by
  induction hr with
  | init m0 =>
    exact save_type_consistent_of_eq k
      (cfg_set_save_type k SAVE_TYPE_NONE (fpga_reg_set REG_CFG_SCR 0 m0)) _ rfl rfl
      (save_type_consistent_set k hk _ _)
  | step _ hs ih => exact save_type_consistent_step k hk _ _ hs ih

/-- Witness of C10: the machine reached when, right after initialisation, the host posts
`'C'` with the property `SaveType` and the value `5`, and the firmware polls once. -/
theorem C10_save_type_invariant_witness :
    (cfg_process sample_consts busy_collab
        (posted 'C'.toNat CFG_ID_SAVE_TYPE 5)).p.save_type ≤ 5 ∧
      (cfg_process sample_consts busy_collab (posted 'C'.toNat CFG_ID_SAVE_TYPE 5)).regs.scr &&&
          save_reset_mask sample_consts =
        spec_save_type_bits sample_consts
          (cfg_process sample_consts busy_collab
            (posted 'C'.toNat CFG_ID_SAVE_TYPE 5)).p.save_type :=
  C10_save_type_invariant sample_consts (by decide) _
    (Reachable.step
      (Reachable.step (Reachable.init _) (Step.host _ 0x100 'C'.toNat CFG_ID_SAVE_TYPE 5))
      (Step.poll busy_collab _))

/-! ## Update followed by query -/

/-- C17: when the pending bit of the status register is clear, one run of `cfg_process`
returns the machine as it found it: no register is stored to, no other module is called
(the log is the same), and the configuration state is unchanged. -/
theorem C17_idle_poll_does_nothing (k : Consts) (w : Collab) (m : Machine)
    (hp : ¬ pending k m) :
    cfg_process k w m = m ∧
      (cfg_process k w m).log = m.log ∧
      (cfg_process k w m).regs = m.regs ∧
      (cfg_process k w m).p = m.p := by
  rw [cfg_process_idle k w m hp]
  exact ⟨rfl, rfl, rfl, rfl⟩

/-- Witness of C17: a machine right after initialisation, with a command in the command
register but the status register clear. -/
theorem C17_idle_poll_does_nothing_witness :
    cfg_process sample_consts free_collab
        { posted 'C'.toNat CFG_ID_SAVE_TYPE 5 with
          regs := { (posted 'C'.toNat CFG_ID_SAVE_TYPE 5).regs with status := 0 } } =
      { posted 'C'.toNat CFG_ID_SAVE_TYPE 5 with
        regs := { (posted 'C'.toNat CFG_ID_SAVE_TYPE 5).regs with status := 0 } } :=
  (C17_idle_poll_does_nothing sample_consts free_collab _ (by decide)).1

/-- The machine `cfg_query` returns is the one it was given, or that one after one call
of a getter of another module. -/
theorem cfg_query_machine (k : Consts) (w : Collab) (args : Nat × Nat) (m : Machine) :
    (cfg_query k w args m).2.2 = m ∨
      ∃ e, reg_writes [e] = [] ∧ (cfg_query k w args m).2.2 = call e m := by
  obtain ⟨id, v⟩ := args
  by_cases h : 12 ≤ id
  · rw [cfg_query_unknown k w id v m h]; exact Or.inl rfl
  · rcases cfg_id_cases id h with
      rfl | rfl | rfl | rfl | rfl | rfl | rfl | rfl | rfl | rfl | rfl | rfl
    · exact Or.inl rfl
    · exact Or.inl rfl
    · exact Or.inl rfl
    · exact Or.inl rfl
    · exact Or.inr ⟨Event.isv_get_enabled, rfl, rfl⟩
    · exact Or.inl rfl
    · exact Or.inl rfl
    · exact Or.inl rfl
    · exact Or.inl rfl
    · exact Or.inl rfl
    · exact Or.inr ⟨Event.dd_get_drive_type, rfl, rfl⟩
    · exact Or.inr ⟨Event.dd_get_disk_state, rfl, rfl⟩

/-- The function `cfg_query` never writes `args[0]`. -/
theorem cfg_query_arg0 (k : Consts) (w : Collab) (args : Nat × Nat) (m : Machine) :
    (cfg_query k w args m).2.1.1 = args.1 := by
  obtain ⟨id, v⟩ := args
  by_cases h : 12 ≤ id
  · rw [cfg_query_unknown k w id v m h]
  · rcases cfg_id_cases id h with
      rfl | rfl | rfl | rfl | rfl | rfl | rfl | rfl | rfl | rfl | rfl | rfl
    all_goals rfl

/-- C19: `cfg_query` is read-only.  For every property id, known or not, and every
machine: it stores to no register (the register file is unchanged and the events it adds
to the log contain no register store), it leaves the configuration state unchanged, and
it leaves `args[0]` unchanged, so that on success only `args[1]` can differ; and when it
returns `true` (error) it has changed nothing at all, `args[1]` included. -/
theorem C19_query_read_only (k : Consts) (w : Collab) (args : Nat × Nat) (m : Machine) :
    (cfg_query k w args m).2.2.regs = m.regs ∧
      (cfg_query k w args m).2.2.p = m.p ∧
      (∃ es, (cfg_query k w args m).2.2.log = m.log ++ es ∧ reg_writes es = []) ∧
      (cfg_query k w args m).2.1.1 = args.1 ∧
      ((cfg_query k w args m).1 = true → cfg_query k w args m = (true, args, m)) := by
  refine ⟨?_, ?_, cfg_query_log k w args m, cfg_query_arg0 k w args m, ?_⟩
  · rcases cfg_query_machine k w args m with h | ⟨e, _, h⟩
    · rw [h]
    · rw [h]; rfl
  · rcases cfg_query_machine k w args m with h | ⟨e, _, h⟩
    · rw [h]
    · rw [h]; rfl
  · intro herr
    obtain ⟨id, v⟩ := args
    by_cases h : 12 ≤ id
    · exact cfg_query_unknown k w id v m h
    · rcases cfg_id_cases id h with
        rfl | rfl | rfl | rfl | rfl | rfl | rfl | rfl | rfl | rfl | rfl | rfl
      all_goals exact absurd herr Bool.false_ne_true

/-- Witness of C19: the unknown id `12` queried on a machine right after initialisation:
the error is returned and nothing has changed. -/
theorem C19_query_read_only_witness :
    cfg_query sample_consts busy_collab (12, 7) (posted 'c'.toNat 12 7) =
      (true, (12, 7), posted 'c'.toNat 12 7) :=
  (C19_query_read_only sample_consts busy_collab (12, 7) (posted 'c'.toNat 12 7)).2.2.2.2
    (by decide)

/-! ## The life of `usb_output_ready` -/

/-- The function `cfg_update` never writes `usb_output_ready`. -/
theorem cfg_update_usb_output_ready (k : Consts) (args : Nat × Nat) (m : Machine) :
    (cfg_update k args m).2.2.p.usb_output_ready = m.p.usb_output_ready := by
  obtain ⟨id, v⟩ := args
  by_cases h12 : 12 ≤ id
  · rw [cfg_update_unknown k id v m h12]
  · rcases cfg_id_cases id h12 with
      rfl | rfl | rfl | rfl | rfl | rfl | rfl | rfl | rfl | rfl | rfl | rfl
    · rw [cfg_update_bootloader_switch, cfg_change_scr_bits_p]
    · rw [cfg_update_rom_write_enable, cfg_change_scr_bits_p]
    · rw [cfg_update_rom_shadow_enable, cfg_change_scr_bits_p]
    · rw [cfg_update_dd_mode]
      show (if _ then _ else _ : Machine).p.usb_output_ready = _
      split_ifs <;> simp only [cfg_change_scr_bits_p]
    · rfl
    · rw [cfg_update_boot_mode, cfg_change_scr_bits_p]
    · rw [cfg_update_save_type, cfg_set_save_type_p]
    · rfl
    · rfl
    · rfl
    · rfl
    · rfl

/-- The machine the `switch` of `cfg_process` ends on has the `usb_output_ready` it
started with, unless the command is `'M'`, the address is accepted and the packet is
taken. -/
theorem cfg_process_switch_usb_output_ready (k : Consts) (w : Collab) (cmd : Nat)
    (args : Nat × Nat) (m : Machine)
    (h : ¬ (cmd = 'M'.toNat ∧ (cfg_translate_address args).1 = false ∧
      w.usb_enqueue_packet (output_packet k (cfg_translate_address args).2) = true)) :
    ∃ m2, (cfg_process_switch k w cmd args m = Outcome.ret m2 ∨
        ∃ a, cfg_process_switch k w cmd args m = Outcome.brk a m2) ∧
      m2.p.usb_output_ready = m.p.usb_output_ready := by
  by_cases hv : cmd = 'v'.toNat
  · subst hv; exact ⟨m, Or.inr ⟨_, rfl⟩, rfl⟩
  by_cases hc : cmd = 'c'.toNat
  · subst hc
    rw [cfg_process_switch_c]
    have hq : (cfg_query k w args m).2.2.p = m.p := by
      rcases cfg_query_machine k w args m with h | ⟨e, _, h⟩
      · rw [h]
      · rw [h]; rfl
    split_ifs with h
    · exact ⟨_, Or.inl rfl, by rw [cfg_set_error_p, hq]⟩
    · exact ⟨_, Or.inr ⟨_, rfl⟩, by rw [hq]⟩
  by_cases hC : cmd = 'C'.toNat
  · subst hC
    rw [cfg_process_switch_C]
    split_ifs with h
    · exact ⟨_, Or.inl rfl, by rw [cfg_set_error_p, cfg_update_usb_output_ready]⟩
    · exact ⟨_, Or.inr ⟨_, rfl⟩, cfg_update_usb_output_ready k args m⟩
  by_cases ht : cmd = 't'.toNat
  · subst ht; exact ⟨_, Or.inr ⟨_, rfl⟩, rfl⟩
  by_cases hT : cmd = 'T'.toNat
  · subst hT; exact ⟨_, Or.inr ⟨_, rfl⟩, rfl⟩
  by_cases hm : cmd = 'm'.toNat
  · subst hm
    rw [cfg_process_switch_m]
    split_ifs with h1 h2
    · exact ⟨_, Or.inl rfl, by rw [cfg_set_error_p]⟩
    · exact ⟨_, Or.inl rfl, rfl⟩
    · exact ⟨_, Or.inr ⟨_, rfl⟩, rfl⟩
  by_cases hM : cmd = 'M'.toNat
  · subst hM
    rw [cfg_process_switch_M]
    split_ifs with h1 h2
    · exact ⟨_, Or.inl rfl, by rw [cfg_set_error_p]⟩
    · exact absurd ⟨rfl, by simpa using h1, h2⟩ h
    · exact ⟨_, Or.inl rfl, rfl⟩
  by_cases hu : cmd = 'u'.toNat
  · subst hu; exact ⟨_, Or.inr ⟨_, rfl⟩, rfl⟩
  by_cases hU : cmd = 'U'.toNat
  · subst hU; exact ⟨_, Or.inr ⟨_, rfl⟩, rfl⟩
  rw [cfg_process_switch_unknown k w cmd args m hv hc hC ht hT hm hM hu hU]
  exact ⟨_, Or.inl rfl, by rw [cfg_set_error_p]⟩

/-- C16: the life of `usb_output_ready`.  `cfg_init` sets it `true`.  A poll in which a
request is pending, the command is `'M'`, the address is accepted and
`usb_enqueue_packet` takes the packet sets it `false`, and that poll stores the results
and then `CFG_CMD_DONE` (without `CFG_CMD_ERROR`) to the command register.  Every other
poll, whatever the command and however it ends, leaves it as it was.  The completion
callback `cfg_set_usb_output_ready` sets it `true` and changes nothing else: no other
field of the configuration state, no register, no entry of the log. -/
theorem C16_usb_output_ready_lifecycle (k : Consts) (w : Collab) (m : Machine) :
    (cfg_init k m).p.usb_output_ready = true ∧
    ((pending k m ∧ request_cmd m = 'M'.toNat ∧
        (cfg_translate_address (request_args m)).1 = false ∧
        w.usb_enqueue_packet (output_packet k (cfg_translate_address (request_args m)).2)
          = true) →
      (cfg_process k w m).p = { m.p with usb_output_ready := false } ∧
      (cfg_process k w m).log = m.log ++
        [Event.usb_create_packet k.PACKET_CMD_USB_OUTPUT,
         Event.usb_enqueue_packet (output_packet k (cfg_translate_address (request_args m)).2),
         Event.reg_set REG_CFG_DATA_0 (u32 (cfg_translate_address (request_args m)).2.1),
         Event.reg_set REG_CFG_DATA_1 (u32 (cfg_translate_address (request_args m)).2.2),
         Event.reg_set REG_CFG_CMD (u32 k.CFG_CMD_DONE)] ∧
      (cfg_process k w m).regs.cmd = u32 k.CFG_CMD_DONE) ∧
    (¬ (pending k m ∧ request_cmd m = 'M'.toNat ∧
        (cfg_translate_address (request_args m)).1 = false ∧
        w.usb_enqueue_packet (output_packet k (cfg_translate_address (request_args m)).2)
          = true) →
      (cfg_process k w m).p.usb_output_ready = m.p.usb_output_ready) ∧
    cfg_set_usb_output_ready m = { m with p := { m.p with usb_output_ready := true } } ∧
    (cfg_set_usb_output_ready m).p =
      { boot_mode := m.p.boot_mode, save_type := m.p.save_type, cic_seed := m.p.cic_seed,
        tv_type := m.p.tv_type, usb_output_ready := true } ∧
    (cfg_set_usb_output_ready m).regs = m.regs ∧
    (cfg_set_usb_output_ready m).log = m.log := by
  refine ⟨rfl, ?_, ?_, rfl, rfl, rfl, rfl⟩
  · rintro ⟨hp, hcmd, hacc, henq⟩
    have hsw : cfg_process_switch k w (request_cmd m) (request_args m) m =
        Outcome.brk (cfg_translate_address (request_args m)).2
          { call (Event.usb_enqueue_packet
                (output_packet k (cfg_translate_address (request_args m)).2))
              (call (Event.usb_create_packet k.PACKET_CMD_USB_OUTPUT) m) with
            p := { m.p with usb_output_ready := false } } := by
      rw [hcmd, cfg_process_switch_M, if_neg (by rw [hacc]; decide), if_pos henq]
    rw [cfg_process_brk k w m _ _ hp hsw]
    refine ⟨rfl, ?_, rfl⟩
    simp [fpga_reg_set, call]
  · intro hn
    by_cases hp : pending k m
    · obtain ⟨m2, hout, husb⟩ := cfg_process_switch_usb_output_ready k w (request_cmd m)
        (request_args m) m (fun h => hn ⟨hp, h⟩)
      rcases hout with h | ⟨a, h⟩
      · rw [cfg_process_ret k w m m2 hp h]; exact husb
      · rw [cfg_process_brk k w m m2 a hp h]; exact husb
    · rw [cfg_process_idle k w m hp]

/-- Witness of C16: right after initialisation the host posts `'M'` for the first 256
bytes of window A and the USB module takes the packet. -/
theorem C16_usb_output_ready_lifecycle_witness :
    (posted 'M'.toNat 0x10000000 0x100).p.usb_output_ready = true ∧
      (cfg_process sample_consts free_collab
        (posted 'M'.toNat 0x10000000 0x100)).p.usb_output_ready = false ∧
      (cfg_process sample_consts free_collab (posted 't'.toNat 0 0)).p.usb_output_ready =
        (posted 't'.toNat 0 0).p.usb_output_ready :=
  ⟨by decide,
    by rw [((C16_usb_output_ready_lifecycle sample_consts free_collab
      (posted 'M'.toNat 0x10000000 0x100)).2.1 ⟨by decide, by decide, by decide, rfl⟩).1],
    (C16_usb_output_ready_lifecycle sample_consts free_collab (posted 't'.toNat 0 0)).2.2.1
      (by decide)⟩

/-! ## Flags of the control register: update, then query -/

/-- The bits of the control register after `cfg_change_scr_bits`. -/
theorem cfg_change_scr_bits_testBit (mask : Nat) (value : Bool) (m : Machine) (i : Nat)
    (hi : i < 32) :
    (cfg_change_scr_bits mask value m).regs.scr.testBit i =
      if value then (m.regs.scr.testBit i || mask.testBit i)
      else (m.regs.scr.testBit i && !mask.testBit i) := by
  rw [cfg_change_scr_bits_scr]
  cases value
  · simp only [Bool.false_eq_true, if_false, Nat.testBit_and, testBit_u32, testBit_not32, hi,
      decide_True, Bool.true_and]
  · simp only [if_true, Nat.testBit_or, testBit_u32, hi, decide_True, Bool.true_and]

/-- A single-bit flag is set in `x` exactly when that bit of `x` is. -/
theorem and_two_pow_ne_zero_iff (x j : Nat) : x &&& 2 ^ j ≠ 0 ↔ x.testBit j = true := by
  rw [← and_two_pow_ne_zero x j, decide_eq_true_iff]

/-- Reading back a flag that was just set gives the mask of the flag. -/
theorem set_then_read (x msk : Nat) (h : msk < 4294967296) :
    u32 (u32 (u32 x ||| msk)) &&& msk = msk := by
  apply Nat.eq_of_testBit_eq
  intro i
  have a1 := testBit_lt32 h i
  simp only [Nat.testBit_and, Nat.testBit_or, testBit_u32]
  generalize decide (i < 32) = c at *
  generalize x.testBit i = x0 at *
  generalize msk.testBit i = x1 at *
  revert a1
  revert c x0 x1
  decide

/-- Reading back a flag that was just cleared gives zero. -/
theorem clear_then_read (x msk : Nat) : u32 (u32 (u32 x &&& not32 msk)) &&& msk = 0 := by
  rw [u32_u32]; exact clear_self x msk

/-- C12: let `id` be one of the three flag properties (bootloader switch, ROM
write-enable, ROM shadow-enable) and `mask` its flag in the control register, a nonzero
32-bit value.  For every machine (so every prior value of the control register) and
every 32-bit value `v`: `cfg_update(id, v)` succeeds, and the following `cfg_query(id)`
succeeds and returns `mask` itself (nonzero, not `1`) when `v != 0` and `0` when `v = 0`;
and every bit of the control register outside `mask` has the value it had before. -/
theorem C12_flag_update_then_query (k : Consts) (w : Collab) (m : Machine)
    (id mask v x : Nat)
    (hid : (id = CFG_ID_BOOTLOADER_SWITCH ∧ mask = k.CFG_SCR_BOOTLOADER_ENABLED) ∨
      (id = CFG_ID_ROM_WRITE_ENABLE ∧ mask = k.CFG_SCR_ROM_WRITE_ENABLED) ∨
      (id = CFG_ID_ROM_SHADOW_ENABLE ∧ mask = k.CFG_SCR_ROM_SHADOW_ENABLED))
    (hlt : mask < 4294967296) (hnz : mask ≠ 0) (_hv : v < 4294967296) :
    (cfg_update k (id, v) m).1 = false ∧
      (cfg_query k w (id, x) (cfg_update k (id, v) m).2.2).1 = false ∧
      (v ≠ 0 →
        (cfg_query k w (id, x) (cfg_update k (id, v) m).2.2).2.1 = (id, mask) ∧
        (cfg_query k w (id, x) (cfg_update k (id, v) m).2.2).2.1.2 ≠ 0) ∧
      (v = 0 → (cfg_query k w (id, x) (cfg_update k (id, v) m).2.2).2.1 = (id, 0)) ∧
      (∀ i, i < 32 → mask.testBit i = false →
        (cfg_update k (id, v) m).2.2.regs.scr.testBit i = m.regs.scr.testBit i) := by
  have key : ∀ m2 : Machine, m2 = cfg_change_scr_bits mask (v != 0) m →
      (v ≠ 0 → fpga_reg_get m2 REG_CFG_SCR &&& mask = mask) ∧
      (v = 0 → fpga_reg_get m2 REG_CFG_SCR &&& mask = 0) ∧
      (∀ i, i < 32 → mask.testBit i = false →
        m2.regs.scr.testBit i = m.regs.scr.testBit i) := by
    intro m2 hm2
    subst hm2
    refine ⟨?_, ?_, ?_⟩
    · intro hv0
      have hb : (v != 0) = true := by simpa using hv0
      show u32 (cfg_change_scr_bits mask (v != 0) m).regs.scr &&& mask = mask
      rw [cfg_change_scr_bits_scr, hb, if_pos rfl]
      exact set_then_read _ _ hlt
    · intro hv0
      have hb : (v != 0) = false := by simp [hv0]
      show u32 (cfg_change_scr_bits mask (v != 0) m).regs.scr &&& mask = 0
      rw [cfg_change_scr_bits_scr, hb, if_neg (by decide)]
      exact clear_then_read _ _
    · intro i hi hmask
      rw [cfg_change_scr_bits_testBit mask (v != 0) m i hi, hmask]
      cases (v != 0) <;> simp
  rcases hid with ⟨rfl, rfl⟩ | ⟨rfl, rfl⟩ | ⟨rfl, rfl⟩
  · obtain ⟨h1, h2, h3⟩ := key _ rfl
    rw [cfg_update_bootloader_switch, cfg_query_bootloader_switch]
    exact ⟨rfl, rfl, fun hv0 => ⟨by rw [h1 hv0], by rw [h1 hv0]; exact hnz⟩,
      fun hv0 => by rw [h2 hv0], h3⟩
  · obtain ⟨h1, h2, h3⟩ := key _ rfl
    rw [cfg_update_rom_write_enable, cfg_query_rom_write_enable]
    exact ⟨rfl, rfl, fun hv0 => ⟨by rw [h1 hv0], by rw [h1 hv0]; exact hnz⟩,
      fun hv0 => by rw [h2 hv0], h3⟩
  · obtain ⟨h1, h2, h3⟩ := key _ rfl
    rw [cfg_update_rom_shadow_enable, cfg_query_rom_shadow_enable]
    exact ⟨rfl, rfl, fun hv0 => ⟨by rw [h1 hv0], by rw [h1 hv0]; exact hnz⟩,
      fun hv0 => by rw [h2 hv0], h3⟩

/-- Witness of C12: the ROM write-enable flag, written with `5` into a machine right
after initialisation, reads back as its mask `0x004`. -/
theorem C12_flag_update_then_query_witness :
    (cfg_query sample_consts busy_collab (CFG_ID_ROM_WRITE_ENABLE, 0)
        (cfg_update sample_consts (CFG_ID_ROM_WRITE_ENABLE, 5) (posted 0 0 0)).2.2).2.1 =
      (CFG_ID_ROM_WRITE_ENABLE, 0x004) :=
  ((C12_flag_update_then_query sample_consts busy_collab (posted 0 0 0)
    CFG_ID_ROM_WRITE_ENABLE 0x004 5 0 (Or.inr (Or.inl ⟨rfl, rfl⟩)) (by decide) (by decide)
    (by decide)).2.2.1 (by decide)).1

/-- The value `cfg_query(DdMode)` returns, for single-bit flags: bit 1 is the IPL flag of
the control register, bit 0 the regs flag. -/
theorem cfg_query_dd_mode_value (k : Consts) (w : Collab) (x : Nat) (m : Machine)
    (a b : Nat) (hdd : k.CFG_SCR_DD_ENABLED = 2 ^ a) (hipl : k.CFG_SCR_DDIPL_ENABLED = 2 ^ b)
    (ha : a < 32) (hb : b < 32) :
    (cfg_query k w (CFG_ID_DD_MODE, x) m).2.1.2 =
      (if m.regs.scr.testBit b then 2 else 0) + (if m.regs.scr.testBit a then 1 else 0) := by
  rw [cfg_query_dd_mode, hdd, hipl]
  have ea : (fpga_reg_get m REG_CFG_SCR &&& 2 ^ a ≠ 0) ↔ m.regs.scr.testBit a = true := by
    rw [and_two_pow_ne_zero_iff]
    show (u32 m.regs.scr).testBit a = true ↔ _
    rw [testBit_u32]; simp [ha]
  have eb : (fpga_reg_get m REG_CFG_SCR &&& 2 ^ b ≠ 0) ↔ m.regs.scr.testBit b = true := by
    rw [and_two_pow_ne_zero_iff]
    show (u32 m.regs.scr).testBit b = true ↔ _
    rw [testBit_u32]; simp [hb]
  simp only [ea, eb, DD_MODE_DISABLED, DD_MODE_IPL, DD_MODE_REGS]
  cases m.regs.scr.testBit a <;> cases m.regs.scr.testBit b <;> decide

/-- C13: let the disk-drive-enable (regs) flag and the disk-IPL-enable flag of the
control register be single bits, at the distinct positions `a` and `b` below 32.  For
every machine (so every prior value of the control register) and every value `v`, after
`cfg_update(DdMode, v)`: `v = 0` leaves both bits clear, `v = 1` leaves regs set and
IPL clear, `v = 2` leaves regs clear and IPL set, and every other `v` leaves both set;
and the following `cfg_query(DdMode)` succeeds and returns `v` when `v <= 3` and `3` for
every larger `v`. -/
theorem C13_dd_mode (k : Consts) (w : Collab) (m : Machine) (v x a b : Nat)
    (hdd : k.CFG_SCR_DD_ENABLED = 2 ^ a) (hipl : k.CFG_SCR_DDIPL_ENABLED = 2 ^ b)
    (ha : a < 32) (hb : b < 32) (hab : a ≠ b) :
    (v = 0 → (cfg_update k (CFG_ID_DD_MODE, v) m).2.2.regs.scr.testBit a = false ∧
        (cfg_update k (CFG_ID_DD_MODE, v) m).2.2.regs.scr.testBit b = false) ∧
      (v = 1 → (cfg_update k (CFG_ID_DD_MODE, v) m).2.2.regs.scr.testBit a = true ∧
        (cfg_update k (CFG_ID_DD_MODE, v) m).2.2.regs.scr.testBit b = false) ∧
      (v = 2 → (cfg_update k (CFG_ID_DD_MODE, v) m).2.2.regs.scr.testBit a = false ∧
        (cfg_update k (CFG_ID_DD_MODE, v) m).2.2.regs.scr.testBit b = true) ∧
      (3 ≤ v → (cfg_update k (CFG_ID_DD_MODE, v) m).2.2.regs.scr.testBit a = true ∧
        (cfg_update k (CFG_ID_DD_MODE, v) m).2.2.regs.scr.testBit b = true) ∧
      (cfg_update k (CFG_ID_DD_MODE, v) m).1 = false ∧
      (cfg_query k w (CFG_ID_DD_MODE, x) (cfg_update k (CFG_ID_DD_MODE, v) m).2.2).1 = false ∧
      (cfg_query k w (CFG_ID_DD_MODE, x) (cfg_update k (CFG_ID_DD_MODE, v) m).2.2).2.1 =
        (CFG_ID_DD_MODE, if v ≤ 3 then v else 3) := by
  have hba : b ≠ a := Ne.symm hab
  have bits : (cfg_update k (CFG_ID_DD_MODE, v) m).2.2.regs.scr.testBit a =
        decide (v = 1 ∨ 3 ≤ v) ∧
      (cfg_update k (CFG_ID_DD_MODE, v) m).2.2.regs.scr.testBit b = decide (2 ≤ v) := by
    rw [cfg_update_dd_mode]
    simp only [DD_MODE_DISABLED, DD_MODE_REGS, DD_MODE_IPL]
    by_cases h0 : v = 0
    · rw [if_pos h0]
      simp only [cfg_change_scr_bits_testBit _ _ _ a ha, cfg_change_scr_bits_testBit _ _ _ b hb]
      simp [hdd, hipl, Nat.testBit_two_pow, h0, hab, hba]
    rw [if_neg h0]
    by_cases h1 : v = 1
    · rw [if_pos h1]
      simp only [cfg_change_scr_bits_testBit _ _ _ a ha, cfg_change_scr_bits_testBit _ _ _ b hb]
      simp [hdd, hipl, Nat.testBit_two_pow, h1, hab, hba]
    rw [if_neg h1]
    by_cases h2 : v = 2
    · rw [if_pos h2]
      simp only [cfg_change_scr_bits_testBit _ _ _ a ha, cfg_change_scr_bits_testBit _ _ _ b hb]
      simp [hdd, hipl, Nat.testBit_two_pow, h2, hab, hba]
    rw [if_neg h2]
    have h3 : 3 ≤ v := by omega
    have h4 : 2 ≤ v := by omega
    simp only [cfg_change_scr_bits_testBit _ _ _ a ha, cfg_change_scr_bits_testBit _ _ _ b hb]
    simp [hdd, hipl, Nat.testBit_two_pow, h3, h4]
  obtain ⟨bita, bitb⟩ := bits
  refine ⟨?_, ?_, ?_, ?_, by rw [cfg_update_dd_mode], rfl, ?_⟩
  · intro hv; rw [bita, bitb]; simp [hv]
  · intro hv; rw [bita, bitb]; simp [hv]
  · intro hv; rw [bita, bitb]; simp [hv]
  · intro hv
    rw [bita, bitb]
    have h2 : 2 ≤ v := by omega
    simp [hv, h2]
  · have hq := cfg_query_dd_mode_value k w x (cfg_update k (CFG_ID_DD_MODE, v) m).2.2 a b
      hdd hipl ha hb
    rw [bita, bitb] at hq
    have h1 : (cfg_query k w (CFG_ID_DD_MODE, x)
        (cfg_update k (CFG_ID_DD_MODE, v) m).2.2).2.1.1 = CFG_ID_DD_MODE := rfl
    refine Prod.ext h1 ?_
    rw [hq]
    by_cases h0 : v = 0
    · subst h0; decide
    by_cases h1 : v = 1
    · subst h1; decide
    by_cases h2 : v = 2
    · subst h2; decide
    by_cases h3 : v = 3
    · subst h3; decide
    have h4 : 3 ≤ v := by omega
    have h5 : 2 ≤ v := by omega
    have h6 : ¬ v ≤ 3 := by omega
    simp [h4, h5, h6]

/-- Witness of C13: the disk mode `2` (IPL) written into a machine whose control register
has every bit set reads back as `2`. -/
theorem C13_dd_mode_witness :
    (cfg_query sample_consts busy_collab (CFG_ID_DD_MODE, 0)
        (cfg_update sample_consts (CFG_ID_DD_MODE, 2)
          { regs := { status := 0, scr := 0xFFFFFFFF, data_0 := 0, data_1 := 0, cmd := 0,
                      version := 0 }
            p := { boot_mode := 0, save_type := 0, cic_seed := 0, tv_type := 0,
                   usb_output_ready := true }
            log := [] }).2.2).2.1 = (CFG_ID_DD_MODE, 2) :=
  (C13_dd_mode sample_consts busy_collab _ 2 0 4 5 rfl rfl (by decide) (by decide)
    (by decide)).2.2.2.2.2.2

/-! ## Which flags an update keeps -/

/-- A part of a mask shares no bit with what the whole mask shares no bit with. -/
theorem submask_disjoint {r n msk : Nat} (hs : r &&& n = n) (hr : r &&& msk = 0) :
    n &&& msk = 0 := by
  apply Nat.eq_of_testBit_eq
  intro i
  have a1 := testBit_submask hs i
  have a2 := testBit_disjoint hr i
  simp only [Nat.testBit_and, Nat.zero_testBit]
  generalize r.testBit i = x0 at *
  generalize n.testBit i = x1 at *
  generalize msk.testBit i = x2 at *
  revert a1 a2
  revert x0 x1 x2
  decide

/-- Under `scr_masks_disjoint`, two flag masks at different places of `scr_masks` share no
bit. -/
theorem scr_masks_disjoint_get (k : Consts) (hk : scr_masks_disjoint k)
    (i j : Fin (scr_masks k).length) (h : i ≠ j) :
    (scr_masks k).get i &&& (scr_masks k).get j = 0 := by
  have hp := List.pairwise_iff_get.mp hk.2
  rcases Nat.lt_or_gt_of_ne (fun e => h (Fin.ext e)) with hlt | hgt
  · exact hp i j hlt
  · rw [Nat.land_comm]; exact hp j i hgt

/-- Under `scr_masks_disjoint`, every flag mask is a 32-bit value. -/
theorem scr_masks_disjoint_lt (k : Consts) (hk : scr_masks_disjoint k)
    (i : Fin (scr_masks k).length) : (scr_masks k).get i < 4294967296 :=
  hk.1 _ (List.get_mem _ _ _)

/-- One `cfg_change_scr_bits` keeps every flag that shares no bit with its mask. -/
theorem cfg_change_scr_bits_keeps (n msk : Nat) (hd : n &&& msk = 0)
    (hlt : msk < 4294967296) (value : Bool) (m : Machine) :
    (cfg_change_scr_bits n value m).regs.scr &&& msk = m.regs.scr &&& msk := by
  rw [cfg_change_scr_bits_scr]
  cases value
  · rw [if_neg (by decide), clear_other _ _ _ hd, and_u32 _ _ hlt]
  · rw [if_pos rfl, set_other _ _ _ hd, and_u32 _ _ hlt]

/-- The function `cfg_set_save_type` keeps every flag that shares no bit with
`save_reset_mask`. -/
theorem cfg_set_save_type_keeps (k : Consts) (msk : Nat)
    (hd : save_reset_mask k &&& msk = 0) (hlt : msk < 4294967296) (v : Nat) (m : Machine) :
    (cfg_set_save_type k v m).regs.scr &&& msk = m.regs.scr &&& msk := by
  obtain ⟨pee, p16, pse, pfr, psb⟩ := save_reset_mask_parts k
  have c0 : u32 (u32 m.regs.scr &&& not32 (save_reset_mask k)) &&& msk = m.regs.scr &&& msk := by
    rw [clear_other _ _ _ hd, and_u32 _ _ hlt]
  have c1 : ∀ n, save_reset_mask k &&& n = n →
      u32 (u32 (u32 (u32 m.regs.scr &&& not32 (save_reset_mask k))) ||| n) &&& msk =
        m.regs.scr &&& msk := by
    intro n hn
    rw [set_other _ _ _ (submask_disjoint hn hd), u32_u32, c0]
  rw [cfg_set_save_type_scr]
  split_ifs
  · exact c0
  · exact c1 _ pee
  · exact c1 _ p16
  · exact c1 _ pse
  · exact c1 _ pfr
  · exact c1 _ psb
  · exact c0

/-- The function `cfg_update` keeps every flag that shares no bit with the masks it
touches for the property it is given. -/
theorem cfg_update_keeps_flag (k : Consts) (id v : Nat) (m : Machine) (msk : Nat)
    (hlt : msk < 4294967296) (hd : ∀ n ∈ touched_masks k id, n &&& msk = 0) :
    (cfg_update k (id, v) m).2.2.regs.scr &&& msk = m.regs.scr &&& msk := by
  by_cases h12 : 12 ≤ id
  · rw [cfg_update_unknown k id v m h12]
  · rcases cfg_id_cases id h12 with
      rfl | rfl | rfl | rfl | rfl | rfl | rfl | rfl | rfl | rfl | rfl | rfl
    · rw [cfg_update_bootloader_switch]
      exact cfg_change_scr_bits_keeps _ _ (hd _ (by simp [touched_masks])) hlt _ m
    · rw [cfg_update_rom_write_enable]
      exact cfg_change_scr_bits_keeps _ _ (hd _ (by simp [touched_masks])) hlt _ m
    · rw [cfg_update_rom_shadow_enable]
      exact cfg_change_scr_bits_keeps _ _ (hd _ (by simp [touched_masks])) hlt _ m
    · have hdd : k.CFG_SCR_DD_ENABLED &&& msk = 0 := hd _ (by simp [touched_masks])
      have hipl : k.CFG_SCR_DDIPL_ENABLED &&& msk = 0 := hd _ (by simp [touched_masks])
      rw [cfg_update_dd_mode]
      show (if _ then _ else _ : Machine).regs.scr &&& msk = _
      split_ifs
      · exact cfg_change_scr_bits_keeps _ _ (or_disjoint hdd hipl) hlt _ m
      · rw [cfg_change_scr_bits_keeps _ _ hipl hlt, cfg_change_scr_bits_keeps _ _ hdd hlt]
      · rw [cfg_change_scr_bits_keeps _ _ hipl hlt, cfg_change_scr_bits_keeps _ _ hdd hlt]
      · exact cfg_change_scr_bits_keeps _ _ (or_disjoint hdd hipl) hlt _ m
    · rfl
    · rw [cfg_update_boot_mode]
      exact cfg_change_scr_bits_keeps _ _ (hd _ (by simp [touched_masks])) hlt _ _
    · rw [cfg_update_save_type]
      exact cfg_set_save_type_keeps k msk (hd _ (by simp [touched_masks])) hlt v m
    · rfl
    · rfl
    · rfl
    · rfl
    · rfl

/-- The fields of the configuration state after `cfg_update`: each property writes its
own field only, and none writes `usb_output_ready`. -/
theorem cfg_update_p_fields (k : Consts) (id v : Nat) (m : Machine) :
    (id ≠ CFG_ID_BOOT_MODE → (cfg_update k (id, v) m).2.2.p.boot_mode = m.p.boot_mode) ∧
      (id ≠ CFG_ID_SAVE_TYPE → (cfg_update k (id, v) m).2.2.p.save_type = m.p.save_type) ∧
      (id ≠ CFG_ID_CIC_SEED → (cfg_update k (id, v) m).2.2.p.cic_seed = m.p.cic_seed) ∧
      (id ≠ CFG_ID_TV_TYPE → (cfg_update k (id, v) m).2.2.p.tv_type = m.p.tv_type) := by
  by_cases h12 : 12 ≤ id
  · rw [cfg_update_unknown k id v m h12]
    exact ⟨fun _ => rfl, fun _ => rfl, fun _ => rfl, fun _ => rfl⟩
  · rcases cfg_id_cases id h12 with
      rfl | rfl | rfl | rfl | rfl | rfl | rfl | rfl | rfl | rfl | rfl | rfl
    · rw [cfg_update_bootloader_switch, cfg_change_scr_bits_p]
      exact ⟨fun _ => rfl, fun _ => rfl, fun _ => rfl, fun _ => rfl⟩
    · rw [cfg_update_rom_write_enable, cfg_change_scr_bits_p]
      exact ⟨fun _ => rfl, fun _ => rfl, fun _ => rfl, fun _ => rfl⟩
    · rw [cfg_update_rom_shadow_enable, cfg_change_scr_bits_p]
      exact ⟨fun _ => rfl, fun _ => rfl, fun _ => rfl, fun _ => rfl⟩
    · have hp : (cfg_update k (CFG_ID_DD_MODE, v) m).2.2.p = m.p := by
        rw [cfg_update_dd_mode]
        show (if _ then _ else _ : Machine).p = _
        split_ifs <;> simp only [cfg_change_scr_bits_p]
      rw [hp]
      exact ⟨fun _ => rfl, fun _ => rfl, fun _ => rfl, fun _ => rfl⟩
    · exact ⟨fun _ => rfl, fun _ => rfl, fun _ => rfl, fun _ => rfl⟩
    · rw [cfg_update_boot_mode, cfg_change_scr_bits_p]
      exact ⟨fun h => absurd rfl h, fun _ => rfl, fun _ => rfl, fun _ => rfl⟩
    · rw [cfg_update_save_type, cfg_set_save_type_p]
      exact ⟨fun _ => rfl, fun h => absurd rfl h, fun _ => rfl, fun _ => rfl⟩
    · exact ⟨fun _ => rfl, fun _ => rfl, fun h => absurd rfl h, fun _ => rfl⟩
    · exact ⟨fun _ => rfl, fun _ => rfl, fun _ => rfl, fun h => absurd rfl h⟩
    · exact ⟨fun _ => rfl, fun _ => rfl, fun _ => rfl, fun _ => rfl⟩
    · exact ⟨fun _ => rfl, fun _ => rfl, fun _ => rfl, fun _ => rfl⟩
    · exact ⟨fun _ => rfl, fun _ => rfl, fun _ => rfl, fun _ => rfl⟩

/-! ## One property at a time -/

/-- Under `scr_masks_disjoint`, the flag masks at two different places `i` and `j` of
`scr_masks` share no bit. -/
theorem scr_masks_disjoint_at (k : Consts) (hk : scr_masks_disjoint k) (i j : Nat)
    (hi : i < 11) (hj : j < 11) (h : i ≠ j) :
    (scr_masks k).get ⟨i, hi⟩ &&& (scr_masks k).get ⟨j, hj⟩ = 0 :=
  scr_masks_disjoint_get k hk ⟨i, hi⟩ ⟨j, hj⟩ (fun e => h (congrArg Fin.val e))

/-- Under `scr_masks_disjoint`, the flag mask at place `i` of `scr_masks` is a 32-bit
value. -/
theorem scr_masks_lt_at (k : Consts) (hk : scr_masks_disjoint k) (i : Nat) (hi : i < 11) :
    (scr_masks k).get ⟨i, hi⟩ < 4294967296 :=
  scr_masks_disjoint_lt k hk ⟨i, hi⟩

/-- Under `scr_masks_disjoint` the masks `cfg_query` reads are 32-bit values. -/
theorem read_masks_lt (k : Consts) (hk : scr_masks_disjoint k) (id : Nat) :
    ∀ msk ∈ read_masks k id, msk < 4294967296 := by
  have l0 : k.CFG_SCR_BOOTLOADER_ENABLED < 4294967296 :=
    scr_masks_lt_at k hk 0 (by decide)
  have l2 : k.CFG_SCR_ROM_WRITE_ENABLED < 4294967296 :=
    scr_masks_lt_at k hk 2 (by decide)
  have l3 : k.CFG_SCR_ROM_SHADOW_ENABLED < 4294967296 :=
    scr_masks_lt_at k hk 3 (by decide)
  have l4 : k.CFG_SCR_DD_ENABLED < 4294967296 :=
    scr_masks_lt_at k hk 4 (by decide)
  have l5 : k.CFG_SCR_DDIPL_ENABLED < 4294967296 :=
    scr_masks_lt_at k hk 5 (by decide)
  unfold read_masks
  split_ifs <;> simp [l0, l2, l3, l4, l5]

/-- What `cfg_query` returns for a property held by this core depends only on the flags
it reads for that property and on the field of `p` of that property. -/
theorem cfg_query_congr (k : Consts) (w : Collab) (b x : Nat) (m m2 : Machine)
    (hb : b ∈ held_ids)
    (hlt : ∀ msk ∈ read_masks k b, msk < 4294967296)
    (hflags : ∀ msk ∈ read_masks k b, m2.regs.scr &&& msk = m.regs.scr &&& msk)
    (hboot : b = CFG_ID_BOOT_MODE → m2.p.boot_mode = m.p.boot_mode)
    (hsave : b = CFG_ID_SAVE_TYPE → m2.p.save_type = m.p.save_type)
    (hcic : b = CFG_ID_CIC_SEED → m2.p.cic_seed = m.p.cic_seed)
    (htv : b = CFG_ID_TV_TYPE → m2.p.tv_type = m.p.tv_type) :
    (cfg_query k w (b, x) m2).1 = (cfg_query k w (b, x) m).1 ∧
      (cfg_query k w (b, x) m2).2.1 = (cfg_query k w (b, x) m).2.1 := by
  have flag : ∀ msk ∈ read_masks k b,
      fpga_reg_get m2 REG_CFG_SCR &&& msk = fpga_reg_get m REG_CFG_SCR &&& msk := by
    intro msk hmsk
    show u32 m2.regs.scr &&& msk = u32 m.regs.scr &&& msk
    rw [and_u32 _ _ (hlt msk hmsk), and_u32 _ _ (hlt msk hmsk), hflags msk hmsk]
  simp only [held_ids, List.mem_cons, List.mem_singleton, List.not_mem_nil, or_false] at hb
  rcases hb with rfl | rfl | rfl | rfl | rfl | rfl | rfl | rfl
  · rw [cfg_query_bootloader_switch, cfg_query_bootloader_switch,
      flag _ (by simp [read_masks])]
    exact ⟨rfl, rfl⟩
  · rw [cfg_query_rom_write_enable, cfg_query_rom_write_enable,
      flag _ (by simp [read_masks])]
    exact ⟨rfl, rfl⟩
  · rw [cfg_query_rom_shadow_enable, cfg_query_rom_shadow_enable,
      flag _ (by simp [read_masks])]
    exact ⟨rfl, rfl⟩
  · rw [cfg_query_dd_mode, cfg_query_dd_mode,
      flag k.CFG_SCR_DD_ENABLED (by simp [read_masks]),
      flag k.CFG_SCR_DDIPL_ENABLED (by simp [read_masks])]
    exact ⟨rfl, rfl⟩
  · rw [cfg_query_boot_mode, cfg_query_boot_mode, hboot rfl]
    exact ⟨rfl, rfl⟩
  · rw [cfg_query_save_type, cfg_query_save_type, hsave rfl]
    exact ⟨rfl, rfl⟩
  · rw [cfg_query_cic_seed, cfg_query_cic_seed, hcic rfl]
    exact ⟨rfl, rfl⟩
  · rw [cfg_query_tv_type, cfg_query_tv_type, htv rfl]
    exact ⟨rfl, rfl⟩

/-- C18: let the flag masks of the control register be 32-bit values no two of which
share a bit.  Then `cfg_update` changes one property only: for every machine, every value
`v` and every two distinct property ids `a` and `b` among those this core holds
(bootloader switch, ROM write-enable, ROM shadow-enable, disk mode, boot mode, save type,
CIC seed, TV type), `cfg_query(b)` after `cfg_update(a, v)` returns the same flag and the
same `args` as `cfg_query(b)` before it, and `usb_output_ready` is unchanged. -/
theorem C18_update_changes_one_property (k : Consts) (hk : scr_masks_disjoint k)
    (w : Collab) (m : Machine) (a b v x : Nat)
    (ha : a ∈ held_ids) (hb : b ∈ held_ids) (hab : a ≠ b) :
    (cfg_query k w (b, x) (cfg_update k (a, v) m).2.2).1 = (cfg_query k w (b, x) m).1 ∧
      (cfg_query k w (b, x) (cfg_update k (a, v) m).2.2).2.1 =
        (cfg_query k w (b, x) m).2.1 ∧
      (cfg_update k (a, v) m).2.2.p.usb_output_ready = m.p.usb_output_ready := by
  have d01 : k.CFG_SCR_BOOTLOADER_ENABLED &&& k.CFG_SCR_BOOTLOADER_SKIP = 0 :=
    scr_masks_disjoint_at k hk 0 1 (by decide) (by decide) (by decide)
  have d02 : k.CFG_SCR_BOOTLOADER_ENABLED &&& k.CFG_SCR_ROM_WRITE_ENABLED = 0 :=
    scr_masks_disjoint_at k hk 0 2 (by decide) (by decide) (by decide)
  have d03 : k.CFG_SCR_BOOTLOADER_ENABLED &&& k.CFG_SCR_ROM_SHADOW_ENABLED = 0 :=
    scr_masks_disjoint_at k hk 0 3 (by decide) (by decide) (by decide)
  have d04 : k.CFG_SCR_BOOTLOADER_ENABLED &&& k.CFG_SCR_DD_ENABLED = 0 :=
    scr_masks_disjoint_at k hk 0 4 (by decide) (by decide) (by decide)
  have d05 : k.CFG_SCR_BOOTLOADER_ENABLED &&& k.CFG_SCR_DDIPL_ENABLED = 0 :=
    scr_masks_disjoint_at k hk 0 5 (by decide) (by decide) (by decide)
  have d10 : k.CFG_SCR_BOOTLOADER_SKIP &&& k.CFG_SCR_BOOTLOADER_ENABLED = 0 :=
    scr_masks_disjoint_at k hk 1 0 (by decide) (by decide) (by decide)
  have d12 : k.CFG_SCR_BOOTLOADER_SKIP &&& k.CFG_SCR_ROM_WRITE_ENABLED = 0 :=
    scr_masks_disjoint_at k hk 1 2 (by decide) (by decide) (by decide)
  have d13 : k.CFG_SCR_BOOTLOADER_SKIP &&& k.CFG_SCR_ROM_SHADOW_ENABLED = 0 :=
    scr_masks_disjoint_at k hk 1 3 (by decide) (by decide) (by decide)
  have d14 : k.CFG_SCR_BOOTLOADER_SKIP &&& k.CFG_SCR_DD_ENABLED = 0 :=
    scr_masks_disjoint_at k hk 1 4 (by decide) (by decide) (by decide)
  have d15 : k.CFG_SCR_BOOTLOADER_SKIP &&& k.CFG_SCR_DDIPL_ENABLED = 0 :=
    scr_masks_disjoint_at k hk 1 5 (by decide) (by decide) (by decide)
  have d20 : k.CFG_SCR_ROM_WRITE_ENABLED &&& k.CFG_SCR_BOOTLOADER_ENABLED = 0 :=
    scr_masks_disjoint_at k hk 2 0 (by decide) (by decide) (by decide)
  have d21 : k.CFG_SCR_ROM_WRITE_ENABLED &&& k.CFG_SCR_BOOTLOADER_SKIP = 0 :=
    scr_masks_disjoint_at k hk 2 1 (by decide) (by decide) (by decide)
  have d23 : k.CFG_SCR_ROM_WRITE_ENABLED &&& k.CFG_SCR_ROM_SHADOW_ENABLED = 0 :=
    scr_masks_disjoint_at k hk 2 3 (by decide) (by decide) (by decide)
  have d24 : k.CFG_SCR_ROM_WRITE_ENABLED &&& k.CFG_SCR_DD_ENABLED = 0 :=
    scr_masks_disjoint_at k hk 2 4 (by decide) (by decide) (by decide)
  have d25 : k.CFG_SCR_ROM_WRITE_ENABLED &&& k.CFG_SCR_DDIPL_ENABLED = 0 :=
    scr_masks_disjoint_at k hk 2 5 (by decide) (by decide) (by decide)
  have d30 : k.CFG_SCR_ROM_SHADOW_ENABLED &&& k.CFG_SCR_BOOTLOADER_ENABLED = 0 :=
    scr_masks_disjoint_at k hk 3 0 (by decide) (by decide) (by decide)
  have d31 : k.CFG_SCR_ROM_SHADOW_ENABLED &&& k.CFG_SCR_BOOTLOADER_SKIP = 0 :=
    scr_masks_disjoint_at k hk 3 1 (by decide) (by decide) (by decide)
  have d32 : k.CFG_SCR_ROM_SHADOW_ENABLED &&& k.CFG_SCR_ROM_WRITE_ENABLED = 0 :=
    scr_masks_disjoint_at k hk 3 2 (by decide) (by decide) (by decide)
  have d34 : k.CFG_SCR_ROM_SHADOW_ENABLED &&& k.CFG_SCR_DD_ENABLED = 0 :=
    scr_masks_disjoint_at k hk 3 4 (by decide) (by decide) (by decide)
  have d35 : k.CFG_SCR_ROM_SHADOW_ENABLED &&& k.CFG_SCR_DDIPL_ENABLED = 0 :=
    scr_masks_disjoint_at k hk 3 5 (by decide) (by decide) (by decide)
  have d40 : k.CFG_SCR_DD_ENABLED &&& k.CFG_SCR_BOOTLOADER_ENABLED = 0 :=
    scr_masks_disjoint_at k hk 4 0 (by decide) (by decide) (by decide)
  have d41 : k.CFG_SCR_DD_ENABLED &&& k.CFG_SCR_BOOTLOADER_SKIP = 0 :=
    scr_masks_disjoint_at k hk 4 1 (by decide) (by decide) (by decide)
  have d42 : k.CFG_SCR_DD_ENABLED &&& k.CFG_SCR_ROM_WRITE_ENABLED = 0 :=
    scr_masks_disjoint_at k hk 4 2 (by decide) (by decide) (by decide)
  have d43 : k.CFG_SCR_DD_ENABLED &&& k.CFG_SCR_ROM_SHADOW_ENABLED = 0 :=
    scr_masks_disjoint_at k hk 4 3 (by decide) (by decide) (by decide)
  have d45 : k.CFG_SCR_DD_ENABLED &&& k.CFG_SCR_DDIPL_ENABLED = 0 :=
    scr_masks_disjoint_at k hk 4 5 (by decide) (by decide) (by decide)
  have d50 : k.CFG_SCR_DDIPL_ENABLED &&& k.CFG_SCR_BOOTLOADER_ENABLED = 0 :=
    scr_masks_disjoint_at k hk 5 0 (by decide) (by decide) (by decide)
  have d51 : k.CFG_SCR_DDIPL_ENABLED &&& k.CFG_SCR_BOOTLOADER_SKIP = 0 :=
    scr_masks_disjoint_at k hk 5 1 (by decide) (by decide) (by decide)
  have d52 : k.CFG_SCR_DDIPL_ENABLED &&& k.CFG_SCR_ROM_WRITE_ENABLED = 0 :=
    scr_masks_disjoint_at k hk 5 2 (by decide) (by decide) (by decide)
  have d53 : k.CFG_SCR_DDIPL_ENABLED &&& k.CFG_SCR_ROM_SHADOW_ENABLED = 0 :=
    scr_masks_disjoint_at k hk 5 3 (by decide) (by decide) (by decide)
  have d54 : k.CFG_SCR_DDIPL_ENABLED &&& k.CFG_SCR_DD_ENABLED = 0 :=
    scr_masks_disjoint_at k hk 5 4 (by decide) (by decide) (by decide)
  obtain ⟨_, _, r0, r1, r2, r3, r4, r5⟩ := scr_masks_disjoint_save k hk
  rw [Nat.land_comm] at r0 r1 r2 r3 r4 r5
  obtain ⟨pboot, psave, pcic, ptv⟩ := cfg_update_p_fields k a v m
  have hd : ∀ msk ∈ read_masks k b, ∀ n ∈ touched_masks k a, n &&& msk = 0 := by
    simp only [held_ids, List.mem_cons, List.mem_singleton, List.not_mem_nil, or_false]
      at ha hb
    rcases ha with rfl | rfl | rfl | rfl | rfl | rfl | rfl | rfl <;>
      rcases hb with rfl | rfl | rfl | rfl | rfl | rfl | rfl | rfl <;>
      first
        | exact absurd rfl hab
        | simp [read_masks, touched_masks, d01, d02, d03, d04, d05, d10, d12, d13, d14, d15, d20, d21, d23, d24, d25, d30,
      d31, d32, d34, d35, d40, d41, d42, d43, d45, d50, d51, d52, d53, d54, r0, r2, r3, r4, r5]
  have hq := cfg_query_congr k w b x m (cfg_update k (a, v) m).2.2 hb (read_masks_lt k hk b)
    (fun msk hmsk =>
      cfg_update_keeps_flag k a v m msk (read_masks_lt k hk b msk hmsk) (hd msk hmsk))
    (fun h => pboot (by rw [← h]; exact hab))
    (fun h => psave (by rw [← h]; exact hab))
    (fun h => pcic (by rw [← h]; exact hab))
    (fun h => ptv (by rw [← h]; exact hab))
  exact ⟨hq.1, hq.2, cfg_update_usb_output_ready k (a, v) m⟩

/-- Witness of C18: writing the save type `5` right after initialisation does not change
what the query of the disk mode returns. -/
theorem C18_update_changes_one_property_witness :
    (cfg_query sample_consts busy_collab (CFG_ID_DD_MODE, 0)
        (cfg_update sample_consts (CFG_ID_SAVE_TYPE, 5) (posted 0 0 0)).2.2).2.1 =
      (cfg_query sample_consts busy_collab (CFG_ID_DD_MODE, 0) (posted 0 0 0)).2.1 :=
  (C18_update_changes_one_property sample_consts (by decide) busy_collab (posted 0 0 0)
    CFG_ID_SAVE_TYPE CFG_ID_DD_MODE 5 0 (by decide) (by decide) (by decide)).2.1

/-! ## The bootloader-skip flag follows the stored boot mode -/

theorem testBit_255 (j : Nat) : (255 : Nat).testBit j = decide (j < 8) := by
  have h : (255 : Nat) = 2 ^ 8 - 1 := by norm_num
  rw [h, Nat.testBit_two_pow_sub_one]

theorem testBit_16777215 (j : Nat) : (16777215 : Nat).testBit j = decide (j < 24) := by
  have h : (16777215 : Nat) = 2 ^ 24 - 1 := by norm_num
  rw [h, Nat.testBit_two_pow_sub_one]

/-- A value that fits in 8 bits has no bit from position 8 on. -/
theorem testBit_lt256 {x : Nat} (h : x < 256) (j : Nat) (hj : 8 ≤ j) : x.testBit j = false := by
  have h8 : (256 : Nat) = 2 ^ 8 := by norm_num
  have : x < 2 ^ j :=
    lt_of_lt_of_le h (by rw [h8]; exact Nat.pow_le_pow_right (by norm_num) hj)
  exact Nat.testBit_lt_two_pow this

/-- The bits of a byte of `a` put back at its place: those of `a` at the positions
`s .. s + 7`. -/
theorem testBit_byte_at (a s i : Nat) :
    ((((a >>> s) &&& 0xFF) <<< s).testBit i) = (decide (s ≤ i ∧ i < s + 8) && a.testBit i) := by
  rw [Nat.testBit_shiftLeft, Nat.testBit_and, Nat.testBit_shiftRight, testBit_255]
  by_cases h : s ≤ i
  · have e : s + (i - s) = i := by omega
    rw [e]
    by_cases h2 : i < s + 8
    · have h3 : i - s < 8 := by omega
      simp [h, h2, h3]
    · have h3 : ¬ i - s < 8 := by omega
      simp [h, h2, h3]
  · simp [h]

/-- The bits of a byte `x` shifted to the position `s`. -/
theorem testBit_byte_shift (x s i : Nat) (hx : x < 256) :
    (x <<< s).testBit i = (decide (s ≤ i ∧ i < s + 8) && x.testBit (i - s)) := by
  rw [Nat.testBit_shiftLeft]
  by_cases h : s ≤ i
  · by_cases h2 : i < s + 8
    · simp [h, h2]
    · rw [testBit_lt256 hx (i - s) (by omega)]
      simp
  · simp [h]

/-- The words `cfg_get_time` produces for a reading. -/
theorem cfg_get_time_args (w : Collab) (args : Nat × Nat) (m : Machine) :
    (cfg_get_time w args m).1 =
      (u32 ((w.rtc_get_time.hour <<< 16) ||| (w.rtc_get_time.minute <<< 8) |||
          w.rtc_get_time.second),
       u32 ((w.rtc_get_time.weekday <<< 24) ||| (w.rtc_get_time.year <<< 16) |||
          (w.rtc_get_time.month <<< 8) ||| w.rtc_get_time.day)) := rfl

/-- C20: for every pair of 32-bit words `(a0, a1)`, if the RTC driver returns exactly the
reading `cfg_set_time` built from `(a0, a1)` and handed to `rtc_set_time`, then
`cfg_get_time` yields `(a0 & 0x00FFFFFF, a1)`: only the unused top byte of the first word
is lost. -/
theorem C20_set_time_then_get_time (w : Collab) (m m2 : Machine) (a0 a1 : Nat) (x : Nat × Nat)
    (_h0 : a0 < 4294967296) (h1 : a1 < 4294967296)
    (hset : (cfg_set_time (a0, a1) m).log =
      m.log ++ [Event.rtc_set_time w.rtc_get_time]) :
    (cfg_get_time w x m2).1 = (a0 &&& 0x00FFFFFF, a1) := by
  have hw : w.rtc_get_time = cfg_set_time_reading (a0, a1) := by
    have := hset
    simp only [cfg_set_time, call_log, List.append_cancel_left_eq, List.cons.injEq,
      Event.rtc_set_time.injEq, and_true] at this
    exact this.symm
  rw [cfg_get_time_args, hw]
  simp only [cfg_set_time_reading]
  refine Prod.ext ?_ ?_
  · apply Nat.eq_of_testBit_eq
    intro i
    have e0 : (a0 &&& 0xFF) = ((a0 >>> 0) &&& 0xFF) <<< 0 := rfl
    show (u32 ((((a0 >>> 16) &&& 0xFF) <<< 16) ||| (((a0 >>> 8) &&& 0xFF) <<< 8) |||
      (a0 &&& 0xFF))).testBit i = _
    rw [e0]
    simp only [testBit_u32, Nat.testBit_or, testBit_byte_at, Nat.testBit_and,
      testBit_16777215]
    cases a0.testBit i
    · simp
    · simp only [Bool.and_true, Bool.true_and, ← Bool.decide_or, ← Bool.decide_and,
        decide_eq_decide]
      omega
  · apply Nat.eq_of_testBit_eq
    intro i
    have e0 : (a1 &&& 0xFF) = ((a1 >>> 0) &&& 0xFF) <<< 0 := rfl
    have hi := testBit_lt32 h1 i
    show (u32 ((((a1 >>> 24) &&& 0xFF) <<< 24) ||| (((a1 >>> 16) &&& 0xFF) <<< 16) |||
      (((a1 >>> 8) &&& 0xFF) <<< 8) ||| (a1 &&& 0xFF))).testBit i = _
    rw [e0]
    simp only [testBit_u32, Nat.testBit_or, testBit_byte_at]
    cases hb : a1.testBit i
    · simp
    · rw [hb] at hi
      have hi32 : i < 32 := by simpa using hi
      simp only [Bool.and_true, ← Bool.decide_or, ← Bool.decide_and, decide_eq_true_eq]
      omega

/-- The bits of the first word `cfg_get_time` produces, for fields that fit in 8 bits. -/
theorem time_word0_testBit (hour minute second i : Nat)
    (hh : hour < 256) (hm : minute < 256) (hs : second < 256) :
    (u32 ((hour <<< 16) ||| (minute <<< 8) ||| second)).testBit i =
      if i < 8 then second.testBit i
      else if i < 16 then minute.testBit (i - 8)
      else if i < 24 then hour.testBit (i - 16)
      else false := by
  rw [testBit_u32, Nat.testBit_or, Nat.testBit_or, testBit_byte_shift _ _ _ hh,
    testBit_byte_shift _ _ _ hm]
  by_cases h8 : i < 8
  · have a1 : ¬ (16 ≤ i ∧ i < 16 + 8) := by omega
    have a2 : ¬ (8 ≤ i ∧ i < 8 + 8) := by omega
    have a3 : i < 32 := by omega
    simp [h8, a1, a2, a3]
  · rw [if_neg h8, testBit_lt256 hs i (by omega)]
    by_cases h16 : i < 16
    · have a1 : ¬ (16 ≤ i ∧ i < 16 + 8) := by omega
      have a2 : 8 ≤ i ∧ i < 8 + 8 := by omega
      have a3 : i < 32 := by omega
      simp [h16, a1, a2, a3]
    · rw [if_neg h16]
      by_cases h24 : i < 24
      · have a1 : 16 ≤ i ∧ i < 16 + 8 := by omega
        have a2 : ¬ (8 ≤ i ∧ i < 8 + 8) := by omega
        have a3 : i < 32 := by omega
        simp [h24, a1, a2, a3]
      · have a1 : ¬ (16 ≤ i ∧ i < 16 + 8) := by omega
        have a2 : ¬ (8 ≤ i ∧ i < 8 + 8) := by omega
        simp [h24, a1, a2]

/-- The bits of the second word `cfg_get_time` produces, for fields that fit in 8 bits. -/
theorem time_word1_testBit (weekday year month day i : Nat)
    (hw : weekday < 256) (hy : year < 256) (hm : month < 256) (hd : day < 256) :
    (u32 ((weekday <<< 24) ||| (year <<< 16) ||| (month <<< 8) ||| day)).testBit i =
      if i < 8 then day.testBit i
      else if i < 16 then month.testBit (i - 8)
      else if i < 24 then year.testBit (i - 16)
      else if i < 32 then weekday.testBit (i - 24)
      else false := by
  rw [testBit_u32, Nat.testBit_or, Nat.testBit_or, Nat.testBit_or,
    testBit_byte_shift _ _ _ hw, testBit_byte_shift _ _ _ hy, testBit_byte_shift _ _ _ hm]
  by_cases h8 : i < 8
  · have a0 : ¬ 24 ≤ i := by omega
    have a1 : ¬ (16 ≤ i ∧ i < 16 + 8) := by omega
    have a2 : ¬ (8 ≤ i ∧ i < 8 + 8) := by omega
    have a3 : i < 32 := by omega
    simp [h8, a0, a1, a2, a3]
  · rw [if_neg h8, testBit_lt256 hd i (by omega)]
    by_cases h16 : i < 16
    · have a0 : ¬ 24 ≤ i := by omega
      have a1 : ¬ (16 ≤ i ∧ i < 16 + 8) := by omega
      have a2 : 8 ≤ i ∧ i < 8 + 8 := by omega
      have a3 : i < 32 := by omega
      simp [h16, a0, a1, a2, a3]
    · rw [if_neg h16]
      by_cases h24 : i < 24
      · have a0 : ¬ 24 ≤ i := by omega
        have a1 : 16 ≤ i ∧ i < 16 + 8 := by omega
        have a2 : ¬ (8 ≤ i ∧ i < 8 + 8) := by omega
        have a3 : i < 32 := by omega
        simp [h24, a0, a1, a2, a3]
      · rw [if_neg h24]
        by_cases h32 : i < 32
        · have a0 : 24 ≤ i := by omega
          have a1 : ¬ (16 ≤ i ∧ i < 16 + 8) := by omega
          have a2 : ¬ (8 ≤ i ∧ i < 8 + 8) := by omega
          simp [h32, a0, a1, a2]
        · simp [h32]

/-- Taking the byte at position `s` out of a word: its bits are those of the word at
`s .. s + 7`. -/
theorem testBit_byte_of (a s j : Nat) :
    ((a >>> s) &&& 0xFF).testBit j = (decide (j < 8) && a.testBit (s + j)) := by
  rw [Nat.testBit_and, Nat.testBit_shiftRight, testBit_255, Bool.and_comm]

/-- C15: for every clock reading whose seven fields fit in 8 bits each, the two words
`cfg_get_time` produces are `(hour<<16)|(minute<<8)|second` and
`(weekday<<24)|(year<<16)|(month<<8)|day`, and `cfg_set_time`, given these two words,
hands `rtc_set_time` a reading with the identical seven fields. -/
theorem C15_get_time_then_set_time (w : Collab) (m m2 : Machine) (x : Nat × Nat)
    (hs : w.rtc_get_time.second < 256) (hm : w.rtc_get_time.minute < 256)
    (hh : w.rtc_get_time.hour < 256) (hw : w.rtc_get_time.weekday < 256)
    (hd : w.rtc_get_time.day < 256) (hmo : w.rtc_get_time.month < 256)
    (hy : w.rtc_get_time.year < 256) :
    (cfg_get_time w x m).1 =
        ((w.rtc_get_time.hour <<< 16) ||| (w.rtc_get_time.minute <<< 8) |||
            w.rtc_get_time.second,
         (w.rtc_get_time.weekday <<< 24) ||| (w.rtc_get_time.year <<< 16) |||
            (w.rtc_get_time.month <<< 8) ||| w.rtc_get_time.day) ∧
      cfg_set_time_reading (cfg_get_time w x m).1 = w.rtc_get_time ∧
      (cfg_set_time (cfg_get_time w x m).1 m2).log =
        m2.log ++ [Event.rtc_set_time w.rtc_get_time] := by
  have hdec : cfg_set_time_reading (cfg_get_time w x m).1 = w.rtc_get_time := by
    rw [cfg_get_time_args]
    generalize w.rtc_get_time = t at *
    obtain ⟨second, minute, hour, weekday, day, month, year⟩ := t
    simp only at hs hm hh hw hd hmo hy
    simp only [cfg_set_time_reading, rtc_time_t.mk.injEq]
    have e0 : ∀ a : Nat, a &&& 0xFF = (a >>> 0) &&& 0xFF := fun _ => rfl
    refine ⟨?_, ?_, ?_, ?_, ?_, ?_, ?_⟩
    · rw [e0]
      apply Nat.eq_of_testBit_eq
      intro j
      rw [testBit_byte_of, time_word0_testBit _ _ _ _ hh hm hs]
      by_cases hj : j < 8
      · have c8 : 0 + j < 8 := by omega
        have c16 : 0 + j < 16 := by omega
        have c24 : 0 + j < 24 := by omega
        simp [hj, c8, c16, c24]
      · rw [testBit_lt256 hs j (by omega)]
        simp [hj]
    · apply Nat.eq_of_testBit_eq
      intro j
      rw [testBit_byte_of, time_word0_testBit _ _ _ _ hh hm hs]
      by_cases hj : j < 8
      · have c8 : ¬ 8 + j < 8 := by omega
        have c16 : 8 + j < 16 := by omega
        have c24 : 8 + j < 24 := by omega
        simp [hj, c8, c16, c24]
      · rw [testBit_lt256 hm j (by omega)]
        simp [hj]
    · apply Nat.eq_of_testBit_eq
      intro j
      rw [testBit_byte_of, time_word0_testBit _ _ _ _ hh hm hs]
      by_cases hj : j < 8
      · have c8 : ¬ 16 + j < 8 := by omega
        have c16 : ¬ 16 + j < 16 := by omega
        have c24 : 16 + j < 24 := by omega
        simp [hj, c8, c16, c24]
      · rw [testBit_lt256 hh j (by omega)]
        simp [hj]
    · apply Nat.eq_of_testBit_eq
      intro j
      rw [testBit_byte_of, time_word1_testBit _ _ _ _ _ hw hy hmo hd]
      by_cases hj : j < 8
      · have c8 : ¬ 24 + j < 8 := by omega
        have c16 : ¬ 24 + j < 16 := by omega
        have c24 : ¬ 24 + j < 24 := by omega
        have c32 : 24 + j < 32 := by omega
        simp [hj, c8, c16, c24, c32]
      · rw [testBit_lt256 hw j (by omega)]
        simp [hj]
    · rw [e0]
      apply Nat.eq_of_testBit_eq
      intro j
      rw [testBit_byte_of, time_word1_testBit _ _ _ _ _ hw hy hmo hd]
      by_cases hj : j < 8
      · have c8 : 0 + j < 8 := by omega
        have c16 : 0 + j < 16 := by omega
        have c24 : 0 + j < 24 := by omega
        have c32 : 0 + j < 32 := by omega
        simp [hj, c8, c16, c24, c32]
      · rw [testBit_lt256 hd j (by omega)]
        simp [hj]
    · apply Nat.eq_of_testBit_eq
      intro j
      rw [testBit_byte_of, time_word1_testBit _ _ _ _ _ hw hy hmo hd]
      by_cases hj : j < 8
      · have c8 : ¬ 8 + j < 8 := by omega
        have c16 : 8 + j < 16 := by omega
        have c24 : 8 + j < 24 := by omega
        have c32 : 8 + j < 32 := by omega
        simp [hj, c8, c16, c24, c32]
      · rw [testBit_lt256 hmo j (by omega)]
        simp [hj]
    · apply Nat.eq_of_testBit_eq
      intro j
      rw [testBit_byte_of, time_word1_testBit _ _ _ _ _ hw hy hmo hd]
      by_cases hj : j < 8
      · have c8 : ¬ 16 + j < 8 := by omega
        have c16 : ¬ 16 + j < 16 := by omega
        have c24 : 16 + j < 24 := by omega
        have c32 : 16 + j < 32 := by omega
        simp [hj, c8, c16, c24, c32]
      · rw [testBit_lt256 hy j (by omega)]
        simp [hj]
  refine ⟨?_, hdec, ?_⟩
  · rw [cfg_get_time_args]
    have s16 : ∀ a : Nat, a < 256 → a <<< 16 < 4294967296 := by
      intro a ha; rw [Nat.shiftLeft_eq]; omega
    have s8 : ∀ a : Nat, a < 256 → a <<< 8 < 4294967296 := by
      intro a ha; rw [Nat.shiftLeft_eq]; omega
    have s24 : ∀ a : Nat, a < 256 → a <<< 24 < 4294967296 := by
      intro a ha; rw [Nat.shiftLeft_eq]; omega
    rw [u32_of_lt (or_lt32 (or_lt32 (s16 _ hh) (s8 _ hm)) (by omega)),
      u32_of_lt (or_lt32 (or_lt32 (or_lt32 (s24 _ hw) (s16 _ hy)) (s8 _ hmo)) (by omega))]
  · show m2.log ++ [Event.rtc_set_time (cfg_set_time_reading (cfg_get_time w x m).1)] = _
    rw [hdec]

/-- Witness of C15: the reading `{sec=30, min=15, hour=9, weekday=3, day=21, month=6,
year=23}`, which is what the RTC driver of `busy_collab` returns: its encoding is
`(9<<16)|(15<<8)|30` and `(3<<24)|(23<<16)|(6<<8)|21`, and decoding returns the reading. -/
theorem C15_get_time_then_set_time_witness :
    (cfg_get_time busy_collab (0, 0) (posted 't'.toNat 0 0)).1 =
        ((9 <<< 16) ||| (15 <<< 8) ||| 30, (3 <<< 24) ||| (23 <<< 16) ||| (6 <<< 8) ||| 21) ∧
      cfg_set_time_reading
          ((9 <<< 16) ||| (15 <<< 8) ||| 30, (3 <<< 24) ||| (23 <<< 16) ||| (6 <<< 8) ||| 21) =
        { second := 30, minute := 15, hour := 9, weekday := 3, day := 21, month := 6,
          year := 23 } :=
  have h := C15_get_time_then_set_time busy_collab (posted 't'.toNat 0 0)
    (posted 'T'.toNat 0 0) (0, 0) (by decide) (by decide) (by decide) (by decide) (by decide)
    (by decide) (by decide)
  ⟨h.1, h.2.1⟩

/-- Witness of C20: the words `(0xAB173B3B, 0x06630C1F)`; the RTC driver returns the
reading `cfg_set_time` built from them, and `cfg_get_time` yields them back without the
top byte of the first. -/
theorem C20_set_time_then_get_time_witness :
    (cfg_get_time
        { busy_collab with rtc_get_time := cfg_set_time_reading (0xAB173B3B, 0x06630C1F) }
        (0, 0) (posted 't'.toNat 0 0)).1 = (0x173B3B, 0x06630C1F) :=
  C20_set_time_then_get_time
    { busy_collab with rtc_get_time := cfg_set_time_reading (0xAB173B3B, 0x06630C1F) }
    (posted 'T'.toNat 0xAB173B3B 0x06630C1F) (posted 't'.toNat 0 0) 0xAB173B3B 0x06630C1F (0, 0)
    (by decide) (by decide) rfl

end SC64
